import Mathlib

/-!
# Inventory chaincode (`Blockchain.go`): a shallow embedding

The contract keeps `Product` records and one `Transaction` record per retailer in the
key-value world state of the host.  This file embeds

* Go's `int` (64 bit, two's complement) and `strconv.Atoi` / `strconv.Itoa`,
* the two record types and the `encoding/json` image of them,
* the stub calls `GetState` / `PutState` over an explicit world state, and
* the four operations and `Invoke`,

and then proves the properties of the operations.

Conventions.  Go strings and byte slices are Lean `String`s (so every value is valid
UTF-8).  A multi-byte character is a single non-digit for `Atoi`, exactly as its bytes are.
-/

namespace Blockchain

/-! ## Go `int` -/

/-- Smallest value of Go's `int` on the 64-bit platforms the peer runs on. -/
def minInt : Int := -9223372036854775808

/-- Largest value of Go's `int`. -/
def maxInt : Int := 9223372036854775807

/-- Largest `uint64`. -/
def maxUint64 : Nat := 18446744073709551615

/-- Two's-complement wrap-around of a mathematical integer into the range of `int`:
what Go's `+`, `-` on `int` compute. -/
def wrapInt (i : Int) : Int := (i + 9223372036854775808) % 18446744073709551616 - 9223372036854775808

/-- The range of Go's `int`. -/
def InRange (i : Int) : Prop := minInt ≤ i ∧ i ≤ maxInt

instance (i : Int) : Decidable (InRange i) := by unfold InRange; infer_instance

/-! ## `strconv` -/

/-- The two `strconv.NumError` causes. -/
inductive NumError
  | errSyntax
  | errRange
  deriving DecidableEq, Repr

/-- Value of a decimal digit byte, `none` for every other byte. -/
def digitVal (c : Char) : Option Nat :=
  if 48 ≤ c.toNat ∧ c.toNat ≤ 57 then some (c.toNat - 48) else none

/-- The scanning loop of `strconv.ParseUint(s, 10, 64)`: `n` is the value read so far.
A byte that is not a digit is a syntax error (value 0); an overflow of `uint64` is a
range error (value `maxUint64`) and is reported as soon as it happens, before the
remaining bytes are looked at. -/
def parseUintLoop : List Char → Nat → Nat × Option NumError
  | [], n => (n, none)
  | c :: cs, n =>
    match digitVal c with
    | none => (0, some NumError.errSyntax)
    | some d =>
      if maxUint64 / 10 + 1 ≤ n then (maxUint64, some NumError.errRange)
      else if maxUint64 < n * 10 + d then (maxUint64, some NumError.errRange)
      else parseUintLoop cs (n * 10 + d)

/-- Model of `strconv.ParseUint(s, 10, 64)`. -/
def ParseUint (s : List Char) : Nat × Option NumError :=
  match s with
  | [] => (0, some NumError.errSyntax)
  | _ => parseUintLoop s 0

/-- Model of `strconv.ParseInt(s, 10, 0)`: optional sign, then `ParseUint`; a magnitude
outside the `int` range is clamped to `maxInt` / `minInt` with a range error. -/
def ParseInt (s : List Char) : Int × Option NumError :=
  match s with
  | [] => (0, some NumError.errSyntax)
  | c :: t =>
    let neg : Bool := c = '-'
    let body : List Char := if c = '+' ∨ c = '-' then t else s
    match ParseUint body with
    | (_, some NumError.errSyntax) => (0, some NumError.errSyntax)
    | (un, _) =>
      if !neg && 9223372036854775808 ≤ un then (maxInt, some NumError.errRange)
      else if neg && 9223372036854775808 < un then (minInt, some NumError.errRange)
      else (if neg then -(un : Int) else (un : Int), none)

/-- Model of `strconv.Atoi`: value and error.  (The fast path Go takes for short
strings computes the same pair as `ParseInt`.) -/
def Atoi (s : String) : Int × Option NumError := ParseInt s.data

/-- Model of `strconv.Itoa`: the decimal rendering of an `int`. -/
def Itoa (i : Int) : String := toString i

/-! ## Records -/

/-- The inventory record (`type Product struct`). -/
structure Product where
  RetailerId : Int
  SupplierId : Int
  ProductId : Int
  ProductName : String
  Brand : String
  Style : String
  Size : Int
  Color : String
  Quantity : Int
  deriving DecidableEq, Repr

/-- The zero value `Product{}` (also what `var product Product` declares). -/
def Product.zero : Product :=
  { RetailerId := 0, SupplierId := 0, ProductId := 0, ProductName := "", Brand := "",
    Style := "", Size := 0, Color := "", Quantity := 0 }

/-- The record of one mutating call (`type Transaction struct`).  The `xid.ID` and the
`time.Time` are carried in their text form, the form in which they are serialized. -/
structure Transaction where
  TransactionId : String
  TransactionTimestamp : String
  TransactionType : String
  TransactionOwner : String
  ProductInfo : Product
  deriving DecidableEq, Repr

/-! ## `encoding/json`: marshalling -/

/-- Lower-case hexadecimal digit of a value below 16. -/
def hexDigit (n : Nat) : Char := Char.ofNat (if n < 10 then 48 + n else 87 + n)

/-- How `encoding/json` writes one character of a string: quote and backslash are
backslash-escaped; newline, carriage return and tab get their short escape; the other
control characters and the HTML-sensitive `<`, `>`, `&` become a six-character escape
with four hexadecimal digits, and so do the line separators U+2028 and U+2029;
everything else is copied. -/
def escapeChar (c : Char) : List Char :=
  if c = '"' ∨ c = '\\' then ['\\', c]
  else if c = '\n' then ['\\', 'n']
  else if c = '\r' then ['\\', 'r']
  else if c = '\t' then ['\\', 't']
  else if c.toNat < 32 ∨ c = '<' ∨ c = '>' ∨ c = '&' then
    ['\\', 'u', '0', '0', hexDigit (c.toNat / 16), hexDigit (c.toNat % 16)]
  else if c.toNat = 8232 ∨ c.toNat = 8233 then
    ['\\', 'u', '2', '0', '2', hexDigit (c.toNat % 16)]
  else [c]

/-- Escaped body of a JSON string. -/
def escapeChars : List Char → List Char
  | [] => []
  | c :: cs => escapeChar c ++ escapeChars cs

/-- A JSON string literal. -/
def jsonString (s : String) : List Char := '"' :: (escapeChars s.data ++ ['"'])

/-- A JSON integer literal. -/
def jsonInt (i : Int) : List Char := (Itoa i).data

/-- One `"name":value` member. -/
def jsonField (name : String) (value : List Char) : List Char :=
  '"' :: (name.data ++ '"' :: ':' :: value)

/-- Members separated by commas. -/
def jsonMembers : List (List Char) → List Char
  | [] => []
  | [m] => m
  | m :: ms => m ++ ',' :: jsonMembers ms

/-- A JSON object with the given members, without white space. -/
def jsonObject (members : List (List Char)) : List Char :=
  '\x7b' :: (jsonMembers members ++ ['\x7d'])

/-- The JSON text of a `Product`: the fields in declaration order under their tags. -/
def encodeProduct (p : Product) : List Char :=
  jsonObject
    [ jsonField "retailerId" (jsonInt p.RetailerId),
      jsonField "supplierId" (jsonInt p.SupplierId),
      jsonField "productId" (jsonInt p.ProductId),
      jsonField "productName" (jsonString p.ProductName),
      jsonField "brand" (jsonString p.Brand),
      jsonField "style" (jsonString p.Style),
      jsonField "size" (jsonInt p.Size),
      jsonField "color" (jsonString p.Color),
      jsonField "quantity" (jsonInt p.Quantity) ]

/-- The JSON text of a `Transaction`. -/
def encodeTransaction (t : Transaction) : List Char :=
  jsonObject
    [ jsonField "txId" (jsonString t.TransactionId),
      jsonField "txTimestamp" (jsonString t.TransactionTimestamp),
      jsonField "txType" (jsonString t.TransactionType),
      jsonField "txOwner" (jsonString t.TransactionOwner),
      jsonField "productInfo" (encodeProduct t.ProductInfo) ]

/-- Model of `json.Marshal(product)`: bytes and error.  Marshalling a struct of
integers and strings cannot fail, so the error is always `nil`. -/
def marshalProduct (p : Product) : String × Bool := (String.mk (encodeProduct p), false)

/-- Model of `json.Marshal(transaction)`: bytes and error (always `nil`). -/
def marshalTransaction (t : Transaction) : String × Bool :=
  (String.mk (encodeTransaction t), false)

/-! ## `encoding/json`: unmarshalling -/

/-- A parsed JSON value; a number keeps its literal text. -/
inductive JValue
  | null
  | bool (b : Bool)
  | num (lit : List Char)
  | str (s : List Char)
  | arr (items : List JValue)
  | obj (members : List (List Char × JValue))

/-- JSON white space: space, tab, carriage return, line feed. -/
def isSpace (c : Char) : Bool := c = ' ' ∨ c = '\t' ∨ c = '\r' ∨ c = '\n'

/-- Drop leading white space. -/
def skipSpace : List Char → List Char
  | [] => []
  | c :: cs => if isSpace c then skipSpace cs else c :: cs

/-- Value of a hexadecimal digit. -/
def hexVal (c : Char) : Option Nat :=
  if 48 ≤ c.toNat ∧ c.toNat ≤ 57 then some (c.toNat - 48)
  else if 97 ≤ c.toNat ∧ c.toNat ≤ 102 then some (c.toNat - 87)
  else if 65 ≤ c.toNat ∧ c.toNat ≤ 70 then some (c.toNat - 55)
  else none

/-- Value of four hexadecimal digits. -/
def hex4 (a b c d : Char) : Option Nat :=
  match hexVal a, hexVal b, hexVal c, hexVal d with
  | some x, some y, some z, some w => some (((x * 16 + y) * 16 + z) * 16 + w)
  | _, _, _, _ => none

/-- One decoded unit of a JSON string: a character, or a `\uXXXX` escape naming a
UTF-16 surrogate (which only means something next to its partner). -/
inductive StrUnit
  | ch (c : Char)
  | surr (n : Nat)

/-- The unit a `\uXXXX` escape of value `n` stands for. -/
def unitOfEscape (n : Nat) : StrUnit :=
  if 55296 ≤ n ∧ n < 57344 then StrUnit.surr n else StrUnit.ch (Char.ofNat n)

/-- Scan the body of a string literal (the opening quote is consumed already) up to
and including the closing quote.  Raw control characters and unknown escapes are
syntax errors. -/
def scanString : List Char → Option (List StrUnit × List Char)
  | [] => none
  | '"' :: rest => some ([], rest)
  | '\\' :: 'u' :: a :: b :: c :: d :: rest =>
    match hex4 a b c d, scanString rest with
    | some n, some (us, r) => some (unitOfEscape n :: us, r)
    | _, _ => none
  | '\\' :: e :: rest =>
    let unit : Option Char :=
      if e = '"' ∨ e = '\\' ∨ e = '/' then some e
      else if e = 'b' then some (Char.ofNat 8)
      else if e = 'f' then some (Char.ofNat 12)
      else if e = 'n' then some '\n'
      else if e = 'r' then some '\r'
      else if e = 't' then some '\t'
      else none
    match unit, scanString rest with
    | some c, some (us, r) => some (StrUnit.ch c :: us, r)
    | _, _ => none
  | c :: rest =>
    if c.toNat < 32 ∨ c = '\\' then none
    else
      match scanString rest with
      | some (us, r) => some (StrUnit.ch c :: us, r)
      | none => none

/-- Turn string units into characters, `pending` being a surrogate just read: a high
surrogate followed by a low surrogate is one character, any other surrogate is the
replacement character U+FFFD. -/
def joinUnitsAux : Option Nat → List StrUnit → List Char
  | none, [] => []
  | some _, [] => [Char.ofNat 65533]
  | none, StrUnit.ch c :: rest => c :: joinUnitsAux none rest
  | none, StrUnit.surr n :: rest => joinUnitsAux (some n) rest
  | some _, StrUnit.ch c :: rest => Char.ofNat 65533 :: c :: joinUnitsAux none rest
  | some hi, StrUnit.surr lo :: rest =>
    if hi < 56320 ∧ 56320 ≤ lo then
      Char.ofNat (65536 + (hi - 55296) * 1024 + (lo - 56320)) :: joinUnitsAux none rest
    else Char.ofNat 65533 :: joinUnitsAux (some lo) rest

/-- The characters of a scanned string. -/
def joinUnits (us : List StrUnit) : List Char := joinUnitsAux none us

/-- Split off the longest prefix of decimal digits. -/
def takeDigits : List Char → List Char × List Char
  | [] => ([], [])
  | c :: cs =>
    if (digitVal c).isSome then ((takeDigits cs).1.cons c, (takeDigits cs).2) else ([], c :: cs)

/-- Scan the optional exponent of a number whose text so far is `acc`. -/
def scanExponent (acc s : List Char) : Option (List Char × List Char) :=
  match s with
  | e :: t =>
    if e = 'e' ∨ e = 'E' then
      match t with
      | sg :: t2 =>
        if sg = '+' ∨ sg = '-' then
          (if (takeDigits t2).1 = [] then none
           else some (acc ++ e :: sg :: (takeDigits t2).1, (takeDigits t2).2))
        else
          (if (takeDigits t).1 = [] then none
           else some (acc ++ e :: (takeDigits t).1, (takeDigits t).2))
      | [] => none
    else some (acc, s)
  | [] => some (acc, s)

/-- Scan the optional fraction and exponent of a number whose text so far is `acc`. -/
def scanFraction (acc s : List Char) : Option (List Char × List Char) :=
  match s with
  | '.' :: t =>
    if (takeDigits t).1 = [] then none
    else scanExponent (acc ++ '.' :: (takeDigits t).1) (takeDigits t).2
  | _ => scanExponent acc s

/-- Scan the integer part (after the sign `acc`) and then the rest of a number. -/
def scanMagnitude (acc s : List Char) : Option (List Char × List Char) :=
  match s with
  | [] => none
  | c :: t =>
    if c = '0' then scanFraction (acc ++ [c]) t
    else if (digitVal c).isSome then
      scanFraction (acc ++ c :: (takeDigits t).1) (takeDigits t).2
    else none

/-- Scan a JSON number literal: its text and the remaining input. -/
def scanNumber (s : List Char) : Option (List Char × List Char) :=
  match s with
  | '-' :: t => scanMagnitude ['-'] t
  | _ => scanMagnitude [] s

/-- Parse a value that is not an object or an array: a string, `true`, `false`,
`null` or a number. -/
def parseScalar (s : List Char) : Option (JValue × List Char) :=
  match s with
  | '"' :: rest =>
    (match scanString rest with
     | some (us, r) => some (JValue.str (joinUnits us), r)
     | none => none)
  | 't' :: 'r' :: 'u' :: 'e' :: rest => some (JValue.bool true, rest)
  | 'f' :: 'a' :: 'l' :: 's' :: 'e' :: rest => some (JValue.bool false, rest)
  | 'n' :: 'u' :: 'l' :: 'l' :: rest => some (JValue.null, rest)
  | other =>
    match scanNumber other with
    | some (lit, r) => some (JValue.num lit, r)
    | none => none

/-- Does the input, after white space, start with this character? -/
def startsWith (c : Char) (s : List Char) : Bool :=
  match skipSpace s with
  | d :: _ => d = c
  | [] => false

/-- The input after leading white space and one more character. -/
def afterFirst (s : List Char) : List Char := (skipSpace s).tail

mutual
/-- Parse one JSON value (leading white space allowed); `fuel` bounds the recursion. -/
def parseValue : Nat → List Char → Option (JValue × List Char)
  | 0, _ => none
  | fuel + 1, s =>
    if startsWith '\x7b' s then
      (if startsWith '\x7d' (afterFirst s) then some (JValue.obj [], afterFirst (afterFirst s))
       else
         match parseMembers fuel (afterFirst s) with
         | some (ms, r) => some (JValue.obj ms, r)
         | none => none)
    else if startsWith '[' s then
      (if startsWith ']' (afterFirst s) then some (JValue.arr [], afterFirst (afterFirst s))
       else
         match parseItems fuel (afterFirst s) with
         | some (vs, r) => some (JValue.arr vs, r)
         | none => none)
    else parseScalar (skipSpace s)
/-- Parse the members of an object up to and including the closing brace. -/
def parseMembers : Nat → List Char → Option (List (List Char × JValue) × List Char)
  | 0, _ => none
  | fuel + 1, s =>
    if startsWith '"' s then
      match scanString (afterFirst s) with
      | none => none
      | some (key, rest1) =>
        if startsWith ':' rest1 then
          match parseValue fuel (afterFirst rest1) with
          | none => none
          | some (v, rest3) =>
            if startsWith ',' rest3 then
              match parseMembers fuel (afterFirst rest3) with
              | some (ms, r) => some ((joinUnits key, v) :: ms, r)
              | none => none
            else if startsWith '\x7d' rest3 then some ([(joinUnits key, v)], afterFirst rest3)
            else none
        else none
    else none
/-- Parse the items of an array up to and including the closing bracket. -/
def parseItems : Nat → List Char → Option (List JValue × List Char)
  | 0, _ => none
  | fuel + 1, s =>
    match parseValue fuel s with
    | none => none
    | some (v, rest) =>
      if startsWith ',' rest then
        match parseItems fuel (afterFirst rest) with
        | some (vs, r) => some (v :: vs, r)
        | none => none
      else if startsWith ']' rest then some ([v], afterFirst rest)
      else none
end

/-- Parse a complete JSON text: one value, white space around it, nothing else.  The
fuel is the length of the text plus one, which the parser cannot exhaust because every
recursive call has consumed a character. -/
def parseJSON (s : List Char) : Option JValue :=
  match parseValue (s.length + 1) s with
  | some (v, rest) => if skipSpace rest = [] then some v else none
  | none => none

/-- Case folding of object keys used to find the struct field: ASCII letters fold to
lower case, the long s (U+017F) to `s` and the Kelvin sign (U+212A) to `k`. -/
def foldChar (c : Char) : Char :=
  if 65 ≤ c.toNat ∧ c.toNat ≤ 90 then Char.ofNat (c.toNat + 32)
  else if c.toNat = 383 then 's'
  else if c.toNat = 8490 then 'k'
  else c

/-- Does the object key select the struct field with this JSON name? -/
def equalFold (name : String) (key : List Char) : Bool :=
  name.data.map foldChar = key.map foldChar

/-- Store a JSON value into an `int` field: a number literal that `ParseInt` accepts
is stored, `null` is skipped, everything else is a type error that leaves the field. -/
def storeInt (old : Int) (v : JValue) : Int × Bool :=
  match v with
  | JValue.num lit =>
    (match ParseInt lit with
     | (i, none) => (i, false)
     | (_, some _) => (old, true))
  | JValue.null => (old, false)
  | _ => (old, true)

/-- Store a JSON value into a `string` field. -/
def storeString (old : String) (v : JValue) : String × Bool :=
  match v with
  | JValue.str cs => (String.mk cs, false)
  | JValue.null => (old, false)
  | _ => (old, true)

/-- Store one object member into the `Product`; the flag reports a type error.  A key
that selects no field is ignored. -/
def storeMember (p : Product) (key : List Char) (v : JValue) : Product × Bool :=
  if equalFold "retailerId" key then
    ({ p with RetailerId := (storeInt p.RetailerId v).1 }, (storeInt p.RetailerId v).2)
  else if equalFold "supplierId" key then
    ({ p with SupplierId := (storeInt p.SupplierId v).1 }, (storeInt p.SupplierId v).2)
  else if equalFold "productId" key then
    ({ p with ProductId := (storeInt p.ProductId v).1 }, (storeInt p.ProductId v).2)
  else if equalFold "productName" key then
    ({ p with ProductName := (storeString p.ProductName v).1 }, (storeString p.ProductName v).2)
  else if equalFold "brand" key then
    ({ p with Brand := (storeString p.Brand v).1 }, (storeString p.Brand v).2)
  else if equalFold "style" key then
    ({ p with Style := (storeString p.Style v).1 }, (storeString p.Style v).2)
  else if equalFold "size" key then
    ({ p with Size := (storeInt p.Size v).1 }, (storeInt p.Size v).2)
  else if equalFold "color" key then
    ({ p with Color := (storeString p.Color v).1 }, (storeString p.Color v).2)
  else if equalFold "quantity" key then
    ({ p with Quantity := (storeInt p.Quantity v).1 }, (storeInt p.Quantity v).2)
  else (p, false)

/-- Store the members of an object in order (a later duplicate wins). -/
def storeMembers (p : Product) (err : Bool) : List (List Char × JValue) → Product × Bool
  | [] => (p, err)
  | (key, v) :: ms => storeMembers (storeMember p key v).1 (err || (storeMember p key v).2) ms

/-- Model of `json.Unmarshal(data, &product)`: the product afterwards and whether an
error is returned.  Invalid JSON changes nothing; an object fills the fields its keys
select; `null` changes nothing; any other value is a type error. -/
def unmarshalProduct (data : String) (product : Product) : Product × Bool :=
  match parseJSON data.data with
  | none => (product, true)
  | some (JValue.obj ms) => storeMembers product false ms
  | some JValue.null => (product, false)
  | some _ => (product, true)

/-! ## The host: world state and stub -/

/-- A `peer.Response`: `shim.Success(payload)` or `shim.Error(message)`. -/
inductive Response
  | success (payload : String)
  | error (message : String)
  deriving DecidableEq, Repr

/-- The world state as one invocation sees and changes it: the value stored under each
key, and the successful `PutState` calls so far, oldest first. -/
structure World where
  state : String → Option String
  writes : List (String × String)

/-- The world state with nothing stored. -/
def World.empty : World := { state := fun _ => none, writes := [] }

/-- What one invocation receives from outside: the identifier `xid.New()` returns, the
time `time.Now()` returns, and which stub calls report an error. -/
structure Host where
  xidNew : String
  timeNow : String
  getFails : String → Bool
  putFails : String → String → Bool

/-- Model of `stub.GetState(key)`: value (`none` is `nil`) and error.  A failing read
returns `nil` together with the error. -/
def GetState (h : Host) (w : World) (key : String) : Option String × Bool :=
  if h.getFails key then (none, true) else (w.state key, false)

/-- The world state after `value` has been written under `key`. -/
def World.put (w : World) (key value : String) : World :=
  { state := fun k => if k = key then some value else w.state k,
    writes := w.writes ++ [(key, value)] }

/-- Model of `stub.PutState(key, value)`: the world afterwards and the error.  A
failing write changes nothing. -/
def PutState (h : Host) (w : World) (key value : String) : World × Bool :=
  if h.putFails key value then (w, true) else (w.put key value, false)

/-! ## The chaincode -/

/-- The `Product` that `addInventory` builds from its nine arguments (errors of `Atoi`
are discarded, its value is kept). -/
def productOfArgs (a0 a1 a2 a3 a4 a5 a6 a7 a8 : String) : Product :=
  { RetailerId := (Atoi a0).1, SupplierId := (Atoi a1).1, ProductId := (Atoi a2).1,
    ProductName := a3, Brand := a4, Style := a5, Size := (Atoi a6).1, Color := a7,
    Quantity := (Atoi a8).1 }

/-- The `Transaction` that `addInventory` builds: `owner` is `args[1]`. -/
def addTransaction (h : Host) (owner : String) (product : Product) : Transaction :=
  { TransactionId := h.xidNew, TransactionTimestamp := h.timeNow,
    TransactionType := "add", TransactionOwner := owner, ProductInfo := product }

/-- Model of `addInventory(stub, args)`. -/
def addInventory (h : Host) (w : World) (args : List String) : Response × World :=
  match args with
  | [a0, a1, a2, a3, a4, a5, a6, a7, a8] =>
    let product : Product := productOfArgs a0 a1 a2 a3 a4 a5 a6 a7 a8
    let transaction : Transaction := addTransaction h a1 product
    let transactionAsBytes := marshalTransaction transaction
    if transactionAsBytes.2 then (Response.error "Something went wrong in chaincode", w)
    else
      let productAsBytes := marshalProduct product
      if productAsBytes.2 then (Response.error "Something went wrong in chaincode", w)
      else
        let put1 := PutState h w (Itoa product.RetailerId) transactionAsBytes.1
        if put1.2 then (Response.error "Failed to set transaction ", put1.1)
        else
          let put2 := PutState h put1.1 a2 productAsBytes.1
          if put2.2 then (Response.error ("Failed to set asset: " ++ a2), put2.1)
          else (Response.success productAsBytes.1, put2.1)
  | _ => (Response.error "Incorrect arguments. Expecting 9", w)

/-- Model of `viewInventory(stub, args)`. -/
def viewInventory (h : Host) (w : World) (args : List String) : Response × World :=
  match args with
  | [a0] =>
    let got := GetState h w a0
    if got.2 then (Response.error ("Failed to get asset: %s with error: " ++ a0), w)
    else
      match got.1 with
      | none => (Response.error ("Asset not found: " ++ a0), w)
      | some value => (Response.success value, w)
  | _ => (Response.error "Incorrect arguments. Expecting a key", w)

/-- The `Transaction` that `sellFromInventory` builds for the updated product. -/
def sellTransaction (h : Host) (product : Product) : Transaction :=
  { TransactionId := h.xidNew, TransactionTimestamp := h.timeNow,
    TransactionType := "sell", TransactionOwner := Itoa product.RetailerId,
    ProductInfo := product }

/-- Model of `sellFromInventory(stub, args)`.  The error of `GetState`, of
`json.Unmarshal`, of `Atoi` and of the second `json.Marshal` are discarded, as in the
source; the subtraction is Go's, wrapping around. -/
def sellFromInventory (h : Host) (w : World) (args : List String) : Response × World :=
  match args with
  | [a0, a1] =>
    match (GetState h w a0).1 with
    | none => (Response.error "Product not present in inventory", w)
    | some stored =>
      let product0 : Product := (unmarshalProduct stored Product.zero).1
      let qtyToSell : Int := (Atoi a1).1
      if product0.Quantity < qtyToSell then (Response.error "Inventory not sufficient", w)
      else
        let product : Product :=
          { product0 with Quantity := wrapInt (product0.Quantity - qtyToSell) }
        let transaction : Transaction := sellTransaction h product
        let transactionAsBytes := marshalTransaction transaction
        if transactionAsBytes.2 then (Response.error "Something went wrong in chaincode", w)
        else
          let put1 := PutState h w (Itoa product.RetailerId) transactionAsBytes.1
          if put1.2 then (Response.error "Failed to set transaction ", put1.1)
          else
            let productAsBytes := (marshalProduct product).1
            let put2 := PutState h put1.1 a0 productAsBytes
            if put2.2 then (Response.error "Something went wrong in chaincode", put2.1)
            else (Response.success productAsBytes, put2.1)
  | _ => (Response.error "Incorrect arguments. Expecting 2", w)

/-- Model of `getTransactionHistory(stub, args)`. -/
def getTransactionHistory (h : Host) (w : World) (args : List String) : Response × World :=
  match args with
  | [a0] =>
    let got := GetState h w a0
    if got.2 then (Response.error ("Failed to get asset: %s with error: " ++ a0), w)
    else
      match got.1 with
      | none => (Response.error ("Asset not found: " ++ a0), w)
      | some value => (Response.success value, w)
  | _ => (Response.error "Incorrect arguments. Expecting a key", w)

/-- Model of `Init`: `shim.Success(nil)`, nothing is read or written (the `nil` payload
is the empty payload). -/
def Init (w : World) : Response × World := (Response.success "", w)

/-- Model of `Invoke`: `fn` and `args` are what `stub.GetFunctionAndParameters()`
returns.  (The `fmt.Println(args)` of the first branch only prints.) -/
def Invoke (h : Host) (w : World) (fn : String) (args : List String) : Response × World :=
  if fn = "addInventory" then addInventory h w args
  else if fn = "viewInventory" then viewInventory h w args
  else if fn = "sellFromInventory" then sellFromInventory h w args
  else if fn = "getTransactionHistory" then getTransactionHistory h w args
  else (Response.error "Invalid Smart Contract function name.", w)

/-- One invocation: the host behaviour during it, the function name, the arguments. -/
structure Call where
  host : Host
  fn : String
  args : List String

/-- The world state after a sequence of invocations. -/
def run (w : World) : List Call → World
  | [] => w
  | c :: cs => run (Invoke c.host w c.fn c.args).2 cs

/-- A host whose stub calls never fail. -/
def reliableHost (xid time : String) : Host :=
  { xidNew := xid, timeNow := time, getFails := fun _ => false, putFails := fun _ _ => false }

/-! ## Notions used in the statements -/

/-- The integer fields of the product are values of Go's `int`. -/
def Product.WellFormed (p : Product) : Prop :=
  InRange p.RetailerId ∧ InRange p.SupplierId ∧ InRange p.ProductId ∧ InRange p.Size ∧
    InRange p.Quantity

instance (p : Product) : Decidable p.WellFormed := by
  unfold Product.WellFormed; infer_instance

/-- A well-formed unsigned decimal numeral: digits only, non-empty, no leading zero
unless it is `0` itself. -/
def Numeral (l : List Char) : Prop :=
  (∀ c ∈ l, (digitVal c).isSome = true) ∧
    ∃ d ds, l = d :: ds ∧ (d = '0' → ds = [])

/-- The characters that follow a member value inside an object. -/
def Delim (c : Char) : Prop := c = ',' ∨ c = '\x7d'

/-- The parse tree of the JSON text of a product. -/
def productTree (p : Product) : JValue :=
  JValue.obj
    [ ("retailerId".data, JValue.num (jsonInt p.RetailerId)),
      ("supplierId".data, JValue.num (jsonInt p.SupplierId)),
      ("productId".data, JValue.num (jsonInt p.ProductId)),
      ("productName".data, JValue.str p.ProductName.data),
      ("brand".data, JValue.str p.Brand.data),
      ("style".data, JValue.str p.Style.data),
      ("size".data, JValue.num (jsonInt p.Size)),
      ("color".data, JValue.str p.Color.data),
      ("quantity".data, JValue.num (jsonInt p.Quantity)) ]

/-- The product after `n` units are sold: the quantity is decremented with Go's
subtraction on `int`. -/
def soldProduct (p : Product) (n : Int) : Product :=
  { p with Quantity := wrapInt (p.Quantity - n) }

/-- The key under which a mutating call stores the product: `args[2]` for
`addInventory`, `args[0]` for `sellFromInventory`. -/
def productKey (fn : String) (args : List String) : String :=
  if fn = "addInventory" then args.getD 2 "" else args.getD 0 ""

/-- The argument that carries the quantity of a mutating call: `args[8]` for
`addInventory`, `args[1]` for `sellFromInventory`. -/
def quantityArg (fn : String) (args : List String) : String :=
  if fn = "addInventory" then args.getD 8 "" else args.getD 1 ""

/-- The successful `PutState` calls that `after` has on top of `before`. -/
def newWrites (before after : World) : List (String × String) :=
  after.writes.drop before.writes.length

/-- The function name is one of the two mutating operations. -/
def Mutating (fn : String) : Prop := fn = "addInventory" ∨ fn = "sellFromInventory"

instance (fn : String) : Decidable (Mutating fn) := by unfold Mutating; infer_instance

/-- The key under which a mutating call writes its transaction: the decimal rendering
of the parsed `args[0]` for `addInventory`, and of the retailer of the product read
from `args[0]` for `sellFromInventory`. -/
def transactionKey (w : World) (fn : String) (args : List String) : String :=
  if fn = "addInventory" then Itoa (Atoi (args.getD 0 "")).1
  else Itoa (unmarshalProduct ((w.state (args.getD 0 "")).getD "") Product.zero).1.RetailerId

/-- The transaction record of one run with the identifier and the time of another. -/
def Transaction.restamp (t : Transaction) (h : Host) : Transaction :=
  { t with TransactionId := h.xidNew, TransactionTimestamp := h.timeNow }

/-- The record a decoder of a transaction starts from: empty texts and the zero
product. -/
def Transaction.zero : Transaction :=
  { TransactionId := "", TransactionTimestamp := "", TransactionType := "",
    TransactionOwner := "", ProductInfo := Product.zero }

/-- Store one object member into a `Transaction`, as `json.Unmarshal` does for the tags
`txId`, `txTimestamp`, `txType`, `txOwner` and `productInfo`; the flag reports a type
error.  The nested object fills the embedded `Product` member by member. -/
def storeTransactionMember (t : Transaction) (key : List Char) (v : JValue) :
    Transaction × Bool :=
  if equalFold "txId" key then
    ({ t with TransactionId := (storeString t.TransactionId v).1 },
      (storeString t.TransactionId v).2)
  else if equalFold "txTimestamp" key then
    ({ t with TransactionTimestamp := (storeString t.TransactionTimestamp v).1 },
      (storeString t.TransactionTimestamp v).2)
  else if equalFold "txType" key then
    ({ t with TransactionType := (storeString t.TransactionType v).1 },
      (storeString t.TransactionType v).2)
  else if equalFold "txOwner" key then
    ({ t with TransactionOwner := (storeString t.TransactionOwner v).1 },
      (storeString t.TransactionOwner v).2)
  else if equalFold "productInfo" key then
    match v with
    | JValue.obj ms =>
      ({ t with ProductInfo := (storeMembers t.ProductInfo false ms).1 },
        (storeMembers t.ProductInfo false ms).2)
    | JValue.null => (t, false)
    | _ => (t, true)
  else (t, false)

/-- Store the members of an object into a `Transaction`, in order. -/
def storeTransactionMembers (t : Transaction) (err : Bool) :
    List (List Char × JValue) → Transaction × Bool
  | [] => (t, err)
  | (key, v) :: ms =>
    storeTransactionMembers (storeTransactionMember t key v).1
      (err || (storeTransactionMember t key v).2) ms

/-- How a reader of the ledger decodes a stored transaction record: the model of
`json.Unmarshal(data, &transaction)`, with the identifier and the time kept as their
text.  The contract itself never decodes a transaction; the statements use this to say
what the bytes it writes contain. -/
def unmarshalTransaction (data : String) (transaction : Transaction) : Transaction × Bool :=
  match parseJSON data.data with
  | none => (transaction, true)
  | some (JValue.obj ms) => storeTransactionMembers transaction false ms
  | some JValue.null => (transaction, false)
  | some _ => (transaction, true)

/-- The parse tree of the JSON text of a transaction. -/
def transactionTree (t : Transaction) : JValue :=
  JValue.obj
    [ ("txId".data, JValue.str t.TransactionId.data),
      ("txTimestamp".data, JValue.str t.TransactionTimestamp.data),
      ("txType".data, JValue.str t.TransactionType.data),
      ("txOwner".data, JValue.str t.TransactionOwner.data),
      ("productInfo".data, productTree t.ProductInfo) ]

/-- The bound of `int` on the side of the sign of the text: `minInt` for a text that
starts with a minus sign, `maxInt` otherwise. -/
def signBound (s : String) : Int :=
  if s.data.head? = some '-' then minInt else maxInt

/-! ## Decimal numerals and JSON: lemmas -/

theorem toDigitsCore_acc (f : Nat) : ∀ (n : Nat) (ds : List Char),
    Nat.toDigitsCore 10 f n ds = Nat.toDigitsCore 10 f n [] ++ ds := by
  induction f with
  | zero => intro n ds; simp [Nat.toDigitsCore]
  | succ f ih =>
    intro n ds
    simp only [Nat.toDigitsCore]
    by_cases h : n / 10 = 0
    · simp [h]
    · simp only [h, if_false]
      rw [ih (n / 10) (Nat.digitChar (n % 10) :: ds), ih (n / 10) [Nat.digitChar (n % 10)]]
      simp

theorem toDigitsCore_fuel (f : Nat) : ∀ (g n : Nat) (ds : List Char), n < f → n < g →
    Nat.toDigitsCore 10 f n ds = Nat.toDigitsCore 10 g n ds := by
  induction f with
  | zero => intro g n ds h; omega
  | succ f ih =>
    intro g n ds hf hg
    cases g with
    | zero => omega
    | succ g =>
      simp only [Nat.toDigitsCore]
      by_cases h : n / 10 = 0
      · simp [h]
      · simp only [h, if_false]
        apply ih <;> omega

theorem toDigits_lt (n : Nat) (h : n < 10) : Nat.toDigits 10 n = [Nat.digitChar n] := by
  have h0 : n / 10 = 0 := by omega
  have h1 : n % 10 = n := by omega
  simp [Nat.toDigits, Nat.toDigitsCore, h0, h1]

theorem toDigits_ge (n : Nat) (h : 10 ≤ n) :
    Nat.toDigits 10 n = Nat.toDigits 10 (n / 10) ++ [Nat.digitChar (n % 10)] := by
  have h0 : n / 10 ≠ 0 := by omega
  have e1 : Nat.toDigits 10 n
      = Nat.toDigitsCore 10 n (n / 10) [Nat.digitChar (n % 10)] := by
    show Nat.toDigitsCore 10 (n + 1) n [] = _
    rw [Nat.toDigitsCore]
    simp only [h0, if_false]
  have e2 : Nat.toDigits 10 (n / 10) = Nat.toDigitsCore 10 n (n / 10) [] := by
    show Nat.toDigitsCore 10 (n / 10 + 1) (n / 10) [] = _
    apply toDigitsCore_fuel <;> omega
  rw [e1, e2, toDigitsCore_acc]

theorem digitVal_digitChar (d : Nat) (h : d < 10) : digitVal (Nat.digitChar d) = some d := by
  interval_cases d <;> rfl

theorem numeral_toDigits (n : Nat) : Numeral (Nat.toDigits 10 n) := by
  induction n using Nat.strong_induction_on with
  | _ n ih =>
    by_cases h : n < 10
    · rw [toDigits_lt n h]
      refine ⟨?_, Nat.digitChar n, [], rfl, fun _ => rfl⟩
      intro c hc
      simp only [List.mem_singleton] at hc
      subst hc
      rw [digitVal_digitChar n h]; rfl
    · have hge : 10 ≤ n := by omega
      rw [toDigits_ge n hge]
      obtain ⟨hall, d, ds, hd, hz⟩ := ih (n / 10) (by omega)
      refine ⟨?_, d, ds ++ [Nat.digitChar (n % 10)], by rw [hd]; rfl, ?_⟩
      · intro c hc
        rcases List.mem_append.1 hc with hc | hc
        · exact hall c hc
        · simp only [List.mem_singleton] at hc
          subst hc
          rw [digitVal_digitChar _ (Nat.mod_lt _ (by decide))]; rfl
      · intro hd0
        exfalso
        -- a leading zero means `n / 10 = 0`
        have hds := hz hd0
        subst hd0 hds
        by_cases h2 : n / 10 < 10
        · rw [toDigits_lt _ h2] at hd
          have : n / 10 ≠ 0 := by omega
          have h3 : digitVal (Nat.digitChar (n / 10)) = some (n / 10) := digitVal_digitChar _ h2
          simp only [List.cons.injEq, and_true] at hd
          rw [hd] at h3
          have : digitVal '0' = some 0 := rfl
          rw [this] at h3
          simp at h3
          omega
        · rw [toDigits_ge _ (by omega)] at hd
          have := congrArg List.length hd
          obtain ⟨_, d2, ds2, hd2, _⟩ := ih (n / 10 / 10) (by omega)
          rw [hd2] at this
          simp at this

theorem parseUintLoop_step (c : Char) (d v : Nat) (rest : List Char)
    (hc : digitVal c = some d) (hb : v * 10 + d ≤ maxUint64) :
    parseUintLoop (c :: rest) v = parseUintLoop rest (v * 10 + d) := by
  simp only [maxUint64] at hb
  simp only [parseUintLoop, hc, maxUint64]
  rw [if_neg (by omega), if_neg (by omega)]

theorem parseUintLoop_toDigits (n : Nat) : ∀ (v : Nat) (rest : List Char),
    v * 10 ^ (Nat.toDigits 10 n).length + n ≤ maxUint64 →
    parseUintLoop (Nat.toDigits 10 n ++ rest) v
      = parseUintLoop rest (v * 10 ^ (Nat.toDigits 10 n).length + n) := by
  induction n using Nat.strong_induction_on with
  | _ n ih =>
    intro v rest hb
    by_cases h : n < 10
    · rw [toDigits_lt n h] at hb ⊢
      simp only [List.length_singleton, pow_one] at hb ⊢
      exact parseUintLoop_step _ n v rest (digitVal_digitChar n h) hb
    · have hge : 10 ≤ n := by omega
      rw [toDigits_ge n hge] at hb ⊢
      simp only [List.length_append, List.length_singleton, pow_succ] at hb ⊢
      have hd : n % 10 < 10 := Nat.mod_lt _ (by decide)
      generalize hX : v * 10 ^ (Nat.toDigits 10 (n / 10)).length = X at hb
      have hb' : v * (10 ^ (Nat.toDigits 10 (n / 10)).length * 10) = X * 10 := by
        rw [← hX]; ring
      rw [hb'] at hb ⊢
      simp only [maxUint64] at hb
      rw [List.append_assoc, ih (n / 10) (by omega) v _ (by rw [hX]; simp only [maxUint64]; omega),
        hX, List.singleton_append,
        parseUintLoop_step _ (n % 10) _ rest (digitVal_digitChar _ hd)
          (by simp only [maxUint64]; omega)]
      congr 1
      omega

theorem Itoa_ofNat (m : Nat) : (Itoa (Int.ofNat m)).data = Nat.toDigits 10 m := rfl

theorem Itoa_negSucc (m : Nat) :
    (Itoa (Int.negSucc m)).data = '-' :: Nat.toDigits 10 (m + 1) := rfl

theorem digit_ne_of_not_digit (c d : Char) (hc : (digitVal c).isSome = true)
    (hd : digitVal d = none) : c ≠ d := by
  intro h; subst h; rw [hd] at hc; simp at hc

theorem ParseUint_toDigits (n : Nat) (h : n ≤ maxUint64) :
    ParseUint (Nat.toDigits 10 n) = (n, none) := by
  obtain ⟨_, d, ds, hd, _⟩ := numeral_toDigits n
  have h1 := parseUintLoop_toDigits n 0 [] (by simpa using h)
  simp only [List.append_nil, zero_mul, zero_add] at h1
  rw [hd] at h1 ⊢
  show parseUintLoop (d :: ds) 0 = (n, none)
  rw [h1]; rfl

theorem ParseInt_Itoa (i : Int) (h : InRange i) : ParseInt (Itoa i).data = (i, none) := by
  obtain ⟨hlo, hhi⟩ := h
  simp only [minInt, maxInt] at hlo hhi
  cases i with
  | ofNat m =>
    rw [Itoa_ofNat]
    have hm : m ≤ 9223372036854775807 := by
      have : ((m : Nat) : Int) ≤ 9223372036854775807 := hhi
      omega
    have hu := ParseUint_toDigits m (by simp only [maxUint64]; omega)
    obtain ⟨hall, d, ds, hd, _⟩ := numeral_toDigits m
    have hdig := hall d (by rw [hd]; simp)
    have h1 : d ≠ '-' := digit_ne_of_not_digit d '-' hdig rfl
    have h2 : d ≠ '+' := digit_ne_of_not_digit d '+' hdig rfl
    rw [hd] at hu ⊢
    simp only [ParseInt, h1, h2, or_self, if_false, hu, decide_False, Bool.not_false,
      Bool.true_and, Bool.false_and, decide_eq_true_eq]
    rw [if_neg (by omega)]
    simp
  | negSucc m =>
    rw [Itoa_negSucc]
    have hm : m + 1 ≤ 9223372036854775808 := by
      have h3 : (-9223372036854775808 : Int) ≤ Int.negSucc m := hlo
      rw [Int.negSucc_eq] at h3
      omega
    have hu := ParseUint_toDigits (m + 1) (by simp only [maxUint64]; omega)
    simp only [ParseInt, or_true, if_true, hu, decide_True, Bool.not_true, Bool.false_and,
      Bool.true_and, decide_eq_true_eq]
    rw [if_neg (by simp), if_neg (by omega), Int.negSucc_eq]
    push_cast
    rfl

theorem takeDigits_append (ds : List Char) (c : Char) (rest : List Char)
    (hds : ∀ x ∈ ds, (digitVal x).isSome = true) (hc : digitVal c = none) :
    takeDigits (ds ++ c :: rest) = (ds, c :: rest) := by
  induction ds with
  | nil => simp [takeDigits, hc]
  | cons d ds ih =>
    have hd := hds d (by simp)
    have ih' := ih (fun x hx => hds x (by simp [hx]))
    simp [takeDigits, hd, ih']

theorem Delim.facts {c : Char} (h : Delim c) :
    digitVal c = none ∧ c ≠ '.' ∧ c ≠ 'e' ∧ c ≠ 'E' := by
  rcases h with h | h <;> subst h <;> decide

theorem scanMagnitude_numeral (acc l : List Char) (c : Char) (rest : List Char)
    (hl : Numeral l) (hc : Delim c) :
    scanMagnitude acc (l ++ c :: rest) = some (acc ++ l, c :: rest) := by
  obtain ⟨hnd, h1, h2, h3⟩ := hc.facts
  obtain ⟨hall, d, ds, hd, hz⟩ := hl
  subst hd
  have hdig := hall d (by simp)
  have hds : ∀ x ∈ ds, (digitVal x).isSome = true := fun x hx => hall x (by simp [hx])
  by_cases h0 : d = '0'
  · have := hz h0
    subst this
    simp [scanMagnitude, h0, scanFraction, scanExponent, h1, h2, h3]
  · simp [scanMagnitude, h0, hdig, takeDigits_append ds c rest hds hnd, scanFraction,
      scanExponent, h1, h2, h3]

theorem scanNumber_jsonInt (i : Int) (c : Char) (rest : List Char) (hc : Delim c) :
    scanNumber (jsonInt i ++ c :: rest) = some (jsonInt i, c :: rest) := by
  unfold jsonInt
  cases i with
  | ofNat m =>
    rw [Itoa_ofNat]
    obtain ⟨hall, d, ds, hd, hz⟩ := numeral_toDigits m
    have hdig := hall d (by rw [hd]; simp)
    have h1 : d ≠ '-' := digit_ne_of_not_digit d '-' hdig rfl
    have := scanMagnitude_numeral [] _ c rest (numeral_toDigits m) hc
    rw [hd] at this ⊢
    simpa [scanNumber, h1] using this
  | negSucc m =>
    rw [Itoa_negSucc]
    have := scanMagnitude_numeral ['-'] _ c rest (numeral_toDigits (m + 1)) hc
    simpa [scanNumber] using this

/-- The first character of an integer literal. -/
theorem jsonInt_head (i : Int) :
    ∃ d ds, jsonInt i = d :: ds ∧ ((digitVal d).isSome = true ∨ d = '-') := by
  unfold jsonInt
  cases i with
  | ofNat m =>
    rw [Itoa_ofNat]
    obtain ⟨hall, d, ds, hd, _⟩ := numeral_toDigits m
    exact ⟨d, ds, hd, Or.inl (hall d (by rw [hd]; simp))⟩
  | negSucc m =>
    rw [Itoa_negSucc]
    exact ⟨'-', _, rfl, Or.inr rfl⟩

theorem skipSpace_cons (c : Char) (cs : List Char) (h : isSpace c = false) :
    skipSpace (c :: cs) = c :: cs := by
  simp [skipSpace, h]

theorem startsWith_cons (c d : Char) (ds : List Char) (h : isSpace d = false) :
    startsWith c (d :: ds) = decide (d = c) := by
  simp [startsWith, skipSpace_cons d ds h]

theorem afterFirst_cons (d : Char) (ds : List Char) (h : isSpace d = false) :
    afterFirst (d :: ds) = ds := by
  simp [afterFirst, skipSpace_cons d ds h]

theorem parseValue_scalar (f : Nat) (d : Char) (ds : List Char) (h : isSpace d = false)
    (h1 : d ≠ '\x7b') (h2 : d ≠ '[') :
    parseValue (f + 1) (d :: ds) = parseScalar (d :: ds) := by
  rw [parseValue, startsWith_cons _ d ds h, startsWith_cons _ d ds h, skipSpace_cons d ds h]
  simp [h1, h2]

theorem parseScalar_number (d : Char) (ds : List Char)
    (h : (digitVal d).isSome = true ∨ d = '-') :
    parseScalar (d :: ds)
      = match scanNumber (d :: ds) with
        | some (lit, r) => some (JValue.num lit, r)
        | none => none := by
  have hne : ∀ x : Char, digitVal x = none → x ≠ '-' → d ≠ x := by
    intro x hx hx' hdx
    subst hdx
    rcases h with h | h
    · rw [hx] at h; simp at h
    · exact hx' h
  unfold parseScalar
  split
  · next rest heq => exact absurd (List.cons.inj heq).1 (hne _ rfl (by decide))
  · next rest heq => exact absurd (List.cons.inj heq).1 (hne _ rfl (by decide))
  · next rest heq => exact absurd (List.cons.inj heq).1 (hne _ rfl (by decide))
  · next rest heq => exact absurd (List.cons.inj heq).1 (hne _ rfl (by decide))
  · rfl

theorem digit_not_space (d : Char) (h : (digitVal d).isSome = true ∨ d = '-') :
    isSpace d = false ∧ d ≠ '\x7b' ∧ d ≠ '[' := by
  rcases h with h | h
  · refine ⟨?_, ?_, ?_⟩
    · cases hs : isSpace d with
      | false => rfl
      | true =>
        exfalso
        simp only [isSpace, decide_eq_true_eq] at hs
        rcases hs with hs | hs | hs | hs <;> subst hs <;> simp [digitVal] at h
    · intro hd; subst hd; simp [digitVal] at h
    · intro hd; subst hd; simp [digitVal] at h
  · subst h; decide

/-- Parsing an integer member value that is followed by a delimiter. -/
theorem parseValue_jsonInt (f : Nat) (i : Int) (c : Char) (rest : List Char) (hc : Delim c) :
    parseValue (f + 1) (jsonInt i ++ c :: rest) = some (JValue.num (jsonInt i), c :: rest) := by
  obtain ⟨d, ds, hd, hdig⟩ := jsonInt_head i
  obtain ⟨h0, h1, h2⟩ := digit_not_space d hdig
  have hs := scanNumber_jsonInt i c rest hc
  rw [hd] at hs ⊢
  rw [List.cons_append] at hs ⊢
  rw [parseValue_scalar f d _ h0 h1 h2, parseScalar_number d _ hdig, hs]

theorem hexVal_hexDigit (k : Nat) (h : k < 16) : hexVal (hexDigit k) = some k := by
  interval_cases k <;> rfl

theorem hex4_byte (n : Nat) (h : n < 256) :
    hex4 '0' '0' (hexDigit (n / 16)) (hexDigit (n % 16)) = some n := by
  have h0 : hexVal '0' = some 0 := rfl
  simp only [hex4, h0, hexVal_hexDigit (n / 16) (by omega),
    hexVal_hexDigit (n % 16) (Nat.mod_lt _ (by decide))]
  congr 1
  omega

theorem unitOfEscape_toNat (c : Char) (h : c.toNat < 55296) :
    unitOfEscape c.toNat = StrUnit.ch c := by
  unfold unitOfEscape
  rw [if_neg (by omega), Char.ofNat_toNat]

theorem scanString_plain (c : Char) (tail : List Char) (us : List StrUnit) (r : List Char)
    (h : scanString tail = some (us, r)) (h1 : c ≠ '"') (h2 : c ≠ '\\') (h3 : 32 ≤ c.toNat) :
    scanString (c :: tail) = some (StrUnit.ch c :: us, r) := by
  rw [scanString]
  · simp [h, h2]
    omega
  · intro heq; exact h1 heq
  · intro a b c d rest heq _; exact h2 heq
  · intro e rest heq _; exact h2 heq

theorem scanString_escapeChar (c : Char) (tail : List Char) (us : List StrUnit)
    (r : List Char) (h : scanString tail = some (us, r)) :
    scanString (escapeChar c ++ tail) = some (StrUnit.ch c :: us, r) := by
  unfold escapeChar
  by_cases h1 : c = '"' ∨ c = '\\'
  · rw [if_pos h1]
    rcases h1 with h1 | h1 <;> subst h1 <;> simp [scanString, h]
  rw [if_neg h1]
  by_cases h2 : c = '\n'
  · subst h2; simp [scanString, h]
  rw [if_neg h2]
  by_cases h3 : c = '\r'
  · subst h3; simp [scanString, h]
  rw [if_neg h3]
  by_cases h4 : c = '\t'
  · subst h4; simp [scanString, h]
  rw [if_neg h4]
  by_cases h5 : c.toNat < 32 ∨ c = '<' ∨ c = '>' ∨ c = '&'
  · rw [if_pos h5]
    have hn : c.toNat < 256 := by
      rcases h5 with h5 | h5 | h5 | h5
      · omega
      all_goals subst h5; decide
    simp only [List.cons_append, List.nil_append]
    rw [scanString]
    simp only [hex4_byte _ hn, h, unitOfEscape_toNat c (by omega)]
  rw [if_neg h5]
  by_cases h6 : c.toNat = 8232 ∨ c.toNat = 8233
  · rw [if_pos h6]
    have hc : c = Char.ofNat 8232 ∨ c = Char.ofNat 8233 := by
      rcases h6 with h6 | h6
      · left; rw [← h6, Char.ofNat_toNat]
      · right; rw [← h6, Char.ofNat_toNat]
    simp only [List.cons_append, List.nil_append]
    rw [scanString]
    rcases hc with hc | hc <;> subst hc <;> simp only [h] <;> rfl
  rw [if_neg h6]
  push_neg at h1 h5
  exact scanString_plain c tail us r h h1.1 h1.2 (by omega)

theorem scanString_escapeChars (s : List Char) (rest : List Char) :
    scanString (escapeChars s ++ '"' :: rest) = some (s.map StrUnit.ch, rest) := by
  induction s with
  | nil => simp [escapeChars, scanString]
  | cons c cs ih =>
    simp only [escapeChars, List.append_assoc, List.map_cons]
    exact scanString_escapeChar c _ _ _ ih

theorem joinUnits_map_ch (s : List Char) : joinUnits (s.map StrUnit.ch) = s := by
  unfold joinUnits
  induction s with
  | nil => rfl
  | cons c cs ih => simp [joinUnitsAux, ih]

theorem parseValue_jsonString (f : Nat) (s : String) (c : Char) (rest : List Char) :
    parseValue (f + 1) (jsonString s ++ c :: rest) = some (JValue.str s.data, c :: rest) := by
  have h := scanString_escapeChars s.data (c :: rest)
  unfold jsonString
  rw [List.cons_append, parseValue_scalar f '"' _ (by decide) (by decide) (by decide)]
  simp only [parseScalar, List.append_assoc, List.singleton_append, h, joinUnits_map_ch]

theorem parseMembers_more (f : Nat) (name : String) (value tail : List Char) (v : JValue)
    (ms : List (List Char × JValue)) (r : List Char)
    (hname : escapeChars name.data = name.data)
    (hv : parseValue f (value ++ ',' :: tail) = some (v, ',' :: tail))
    (hms : parseMembers f tail = some (ms, r)) :
    parseMembers (f + 1) (jsonField name value ++ ',' :: tail) = some ((name.data, v) :: ms, r) := by
  have h := scanString_escapeChars name.data (':' :: (value ++ ',' :: tail))
  rw [hname] at h
  unfold jsonField
  simp only [List.cons_append, List.append_assoc]
  rw [parseMembers, startsWith_cons _ '"' _ (by decide), afterFirst_cons '"' _ (by decide)]
  simp only [decide_True, if_true, h, startsWith_cons _ ':' _ (by decide : isSpace ':' = false),
    afterFirst_cons ':' _ (by decide : isSpace ':' = false), hv,
    startsWith_cons _ ',' _ (by decide : isSpace ',' = false),
    afterFirst_cons ',' _ (by decide : isSpace ',' = false), hms, joinUnits_map_ch]

theorem parseMembers_last (f : Nat) (name : String) (value tail : List Char) (v : JValue)
    (hname : escapeChars name.data = name.data)
    (hv : parseValue f (value ++ '\x7d' :: tail) = some (v, '\x7d' :: tail)) :
    parseMembers (f + 1) (jsonField name value ++ '\x7d' :: tail) = some ([(name.data, v)], tail) := by
  have h := scanString_escapeChars name.data (':' :: (value ++ '\x7d' :: tail))
  rw [hname] at h
  unfold jsonField
  simp only [List.cons_append, List.append_assoc]
  rw [parseMembers, startsWith_cons _ '"' _ (by decide), afterFirst_cons '"' _ (by decide)]
  simp only [decide_True, if_true, h, startsWith_cons _ ':' _ (by decide : isSpace ':' = false),
    afterFirst_cons ':' _ (by decide : isSpace ':' = false), hv,
    startsWith_cons _ '\x7d' _ (by decide : isSpace '\x7d' = false),
    afterFirst_cons '\x7d' _ (by decide : isSpace '\x7d' = false), joinUnits_map_ch]
  simp

theorem encodeProduct_eq (p : Product) (rest : List Char) :
    encodeProduct p ++ rest = '\x7b' ::
      (jsonField "retailerId" (jsonInt p.RetailerId) ++ ',' ::
      (jsonField "supplierId" (jsonInt p.SupplierId) ++ ',' ::
      (jsonField "productId" (jsonInt p.ProductId) ++ ',' ::
      (jsonField "productName" (jsonString p.ProductName) ++ ',' ::
      (jsonField "brand" (jsonString p.Brand) ++ ',' ::
      (jsonField "style" (jsonString p.Style) ++ ',' ::
      (jsonField "size" (jsonInt p.Size) ++ ',' ::
      (jsonField "color" (jsonString p.Color) ++ ',' ::
      (jsonField "quantity" (jsonInt p.Quantity) ++ '\x7d' :: rest))))))))) := by
  simp only [encodeProduct, jsonObject, jsonMembers, List.cons_append, List.append_assoc,
    List.nil_append]

theorem parseValue_encodeProduct (g : Nat) (p : Product) (rest : List Char) :
    parseValue (g + 11) (encodeProduct p ++ rest) = some (productTree p, rest) := by
  have k9 := parseMembers_last (g + 1) "quantity" (jsonInt p.Quantity) rest _ (by decide)
    (parseValue_jsonInt g p.Quantity _ rest (Or.inr rfl))
  have k8 := parseMembers_more (g + 2) "color" (jsonString p.Color) _ _ _ _ (by decide)
    (parseValue_jsonString (g + 1) p.Color _ _) k9
  have k7 := parseMembers_more (g + 3) "size" (jsonInt p.Size) _ _ _ _ (by decide)
    (parseValue_jsonInt (g + 2) p.Size _ _ (Or.inl rfl)) k8
  have k6 := parseMembers_more (g + 4) "style" (jsonString p.Style) _ _ _ _ (by decide)
    (parseValue_jsonString (g + 3) p.Style _ _) k7
  have k5 := parseMembers_more (g + 5) "brand" (jsonString p.Brand) _ _ _ _ (by decide)
    (parseValue_jsonString (g + 4) p.Brand _ _) k6
  have k4 := parseMembers_more (g + 6) "productName" (jsonString p.ProductName) _ _ _ _
    (by decide) (parseValue_jsonString (g + 5) p.ProductName _ _) k5
  have k3 := parseMembers_more (g + 7) "productId" (jsonInt p.ProductId) _ _ _ _ (by decide)
    (parseValue_jsonInt (g + 6) p.ProductId _ _ (Or.inl rfl)) k4
  have k2 := parseMembers_more (g + 8) "supplierId" (jsonInt p.SupplierId) _ _ _ _ (by decide)
    (parseValue_jsonInt (g + 7) p.SupplierId _ _ (Or.inl rfl)) k3
  have k1 := parseMembers_more (g + 9) "retailerId" (jsonInt p.RetailerId) _ _ _ _ (by decide)
    (parseValue_jsonInt (g + 8) p.RetailerId _ _ (Or.inl rfl)) k2
  rw [encodeProduct_eq, parseValue, startsWith_cons _ '\x7b' _ (by decide),
    afterFirst_cons '\x7b' _ (by decide)]
  have hq : startsWith '\x7d' (jsonField "retailerId" (jsonInt p.RetailerId) ++ ',' ::
      (jsonField "supplierId" (jsonInt p.SupplierId) ++ ',' ::
      (jsonField "productId" (jsonInt p.ProductId) ++ ',' ::
      (jsonField "productName" (jsonString p.ProductName) ++ ',' ::
      (jsonField "brand" (jsonString p.Brand) ++ ',' ::
      (jsonField "style" (jsonString p.Style) ++ ',' ::
      (jsonField "size" (jsonInt p.Size) ++ ',' ::
      (jsonField "color" (jsonString p.Color) ++ ',' ::
      (jsonField "quantity" (jsonInt p.Quantity) ++ '\x7d' :: rest))))))))) = false := by
    unfold jsonField
    rw [List.cons_append, startsWith_cons _ '"' _ (by decide)]
    decide
  rw [hq, k1]
  simp [productTree]

theorem storeInt_jsonInt (old i : Int) (h : InRange i) :
    storeInt old (JValue.num (jsonInt i)) = (i, false) := by
  simp only [storeInt, jsonInt, ParseInt_Itoa i h]

theorem storeString_data (old s : String) : storeString old (JValue.str s.data) = (s, false) :=
  rfl

theorem storeMember_retailerId (a0 : Int) (a1 : Int) (a2 : Int) (a3 : String) (a4 : String) (a5 : String) (a6 : Int) (a7 : String) (a8 : Int)
    (v : JValue) :
    storeMember (Product.mk a0 a1 a2 a3 a4 a5 a6 a7 a8) "retailerId".data v
      = (Product.mk (storeInt a0 v).1 a1 a2 a3 a4 a5 a6 a7 a8,
          (storeInt a0 v).2) := by
  unfold storeMember
  rw [if_pos (by decide)]

theorem storeMember_supplierId (a0 : Int) (a1 : Int) (a2 : Int) (a3 : String) (a4 : String) (a5 : String) (a6 : Int) (a7 : String) (a8 : Int)
    (v : JValue) :
    storeMember (Product.mk a0 a1 a2 a3 a4 a5 a6 a7 a8) "supplierId".data v
      = (Product.mk a0 (storeInt a1 v).1 a2 a3 a4 a5 a6 a7 a8,
          (storeInt a1 v).2) := by
  unfold storeMember
  rw [if_neg (by decide), if_pos (by decide)]

theorem storeMember_productId (a0 : Int) (a1 : Int) (a2 : Int) (a3 : String) (a4 : String) (a5 : String) (a6 : Int) (a7 : String) (a8 : Int)
    (v : JValue) :
    storeMember (Product.mk a0 a1 a2 a3 a4 a5 a6 a7 a8) "productId".data v
      = (Product.mk a0 a1 (storeInt a2 v).1 a3 a4 a5 a6 a7 a8,
          (storeInt a2 v).2) := by
  unfold storeMember
  rw [if_neg (by decide), if_neg (by decide), if_pos (by decide)]

theorem storeMember_productName (a0 : Int) (a1 : Int) (a2 : Int) (a3 : String) (a4 : String) (a5 : String) (a6 : Int) (a7 : String) (a8 : Int)
    (v : JValue) :
    storeMember (Product.mk a0 a1 a2 a3 a4 a5 a6 a7 a8) "productName".data v
      = (Product.mk a0 a1 a2 (storeString a3 v).1 a4 a5 a6 a7 a8,
          (storeString a3 v).2) := by
  unfold storeMember
  rw [if_neg (by decide), if_neg (by decide), if_neg (by decide), if_pos (by decide)]

theorem storeMember_brand (a0 : Int) (a1 : Int) (a2 : Int) (a3 : String) (a4 : String) (a5 : String) (a6 : Int) (a7 : String) (a8 : Int)
    (v : JValue) :
    storeMember (Product.mk a0 a1 a2 a3 a4 a5 a6 a7 a8) "brand".data v
      = (Product.mk a0 a1 a2 a3 (storeString a4 v).1 a5 a6 a7 a8,
          (storeString a4 v).2) := by
  unfold storeMember
  rw [if_neg (by decide), if_neg (by decide), if_neg (by decide), if_neg (by decide), if_pos (by decide)]

theorem storeMember_style (a0 : Int) (a1 : Int) (a2 : Int) (a3 : String) (a4 : String) (a5 : String) (a6 : Int) (a7 : String) (a8 : Int)
    (v : JValue) :
    storeMember (Product.mk a0 a1 a2 a3 a4 a5 a6 a7 a8) "style".data v
      = (Product.mk a0 a1 a2 a3 a4 (storeString a5 v).1 a6 a7 a8,
          (storeString a5 v).2) := by
  unfold storeMember
  rw [if_neg (by decide), if_neg (by decide), if_neg (by decide), if_neg (by decide), if_neg (by decide), if_pos (by decide)]

theorem storeMember_size (a0 : Int) (a1 : Int) (a2 : Int) (a3 : String) (a4 : String) (a5 : String) (a6 : Int) (a7 : String) (a8 : Int)
    (v : JValue) :
    storeMember (Product.mk a0 a1 a2 a3 a4 a5 a6 a7 a8) "size".data v
      = (Product.mk a0 a1 a2 a3 a4 a5 (storeInt a6 v).1 a7 a8,
          (storeInt a6 v).2) := by
  unfold storeMember
  rw [if_neg (by decide), if_neg (by decide), if_neg (by decide), if_neg (by decide), if_neg (by decide), if_neg (by decide), if_pos (by decide)]

theorem storeMember_color (a0 : Int) (a1 : Int) (a2 : Int) (a3 : String) (a4 : String) (a5 : String) (a6 : Int) (a7 : String) (a8 : Int)
    (v : JValue) :
    storeMember (Product.mk a0 a1 a2 a3 a4 a5 a6 a7 a8) "color".data v
      = (Product.mk a0 a1 a2 a3 a4 a5 a6 (storeString a7 v).1 a8,
          (storeString a7 v).2) := by
  unfold storeMember
  rw [if_neg (by decide), if_neg (by decide), if_neg (by decide), if_neg (by decide), if_neg (by decide), if_neg (by decide), if_neg (by decide), if_pos (by decide)]

theorem storeMember_quantity (a0 : Int) (a1 : Int) (a2 : Int) (a3 : String) (a4 : String) (a5 : String) (a6 : Int) (a7 : String) (a8 : Int)
    (v : JValue) :
    storeMember (Product.mk a0 a1 a2 a3 a4 a5 a6 a7 a8) "quantity".data v
      = (Product.mk a0 a1 a2 a3 a4 a5 a6 a7 (storeInt a8 v).1,
          (storeInt a8 v).2) := by
  unfold storeMember
  rw [if_neg (by decide), if_neg (by decide), if_neg (by decide), if_neg (by decide), if_neg (by decide), if_neg (by decide), if_neg (by decide), if_neg (by decide), if_pos (by decide)]

theorem encodeProduct_length (p : Product) : 10 ≤ (encodeProduct p).length := by
  have h := congrArg List.length (encodeProduct_eq p [])
  simp only [List.append_nil, List.length_cons, List.length_append, jsonField] at h
  omega

theorem parseJSON_encodeProduct (p : Product) :
    parseJSON (encodeProduct p) = some (productTree p) := by
  obtain ⟨g, hg⟩ : ∃ g, (encodeProduct p).length + 1 = g + 11 :=
    ⟨(encodeProduct p).length - 10, by have := encodeProduct_length p; omega⟩
  have h := parseValue_encodeProduct g p []
  rw [List.append_nil] at h
  simp only [parseJSON, hg, h, skipSpace, if_true]

theorem storeMembers_cons (p : Product) (err : Bool) (key : List Char) (v : JValue)
    (ms : List (List Char × JValue)) :
    storeMembers p err ((key, v) :: ms)
      = storeMembers (storeMember p key v).1 (err || (storeMember p key v).2) ms := rfl

theorem storeMembers_productTree (p q : Product) (hp : p.WellFormed) :
    storeMembers q false
      [ ("retailerId".data, JValue.num (jsonInt p.RetailerId)),
        ("supplierId".data, JValue.num (jsonInt p.SupplierId)),
        ("productId".data, JValue.num (jsonInt p.ProductId)),
        ("productName".data, JValue.str p.ProductName.data),
        ("brand".data, JValue.str p.Brand.data),
        ("style".data, JValue.str p.Style.data),
        ("size".data, JValue.num (jsonInt p.Size)),
        ("color".data, JValue.str p.Color.data),
        ("quantity".data, JValue.num (jsonInt p.Quantity)) ] = (p, false) := by
  obtain ⟨h1, h2, h3, h4, h5⟩ := hp
  obtain ⟨b0, b1, b2, b3, b4, b5, b6, b7, b8⟩ := q
  rw [storeMembers_cons, storeMember_retailerId, storeInt_jsonInt _ _ h1]
  rw [storeMembers_cons, storeMember_supplierId, storeInt_jsonInt _ _ h2]
  rw [storeMembers_cons, storeMember_productId, storeInt_jsonInt _ _ h3]
  rw [storeMembers_cons, storeMember_productName, storeString_data]
  rw [storeMembers_cons, storeMember_brand, storeString_data]
  rw [storeMembers_cons, storeMember_style, storeString_data]
  rw [storeMembers_cons, storeMember_size, storeInt_jsonInt _ _ h4]
  rw [storeMembers_cons, storeMember_color, storeString_data]
  rw [storeMembers_cons, storeMember_quantity, storeInt_jsonInt _ _ h5]
  rfl

/-- Unmarshalling the JSON text of a product gives the product back, whatever the
target held before. -/
theorem unmarshal_marshal (p q : Product) (hp : p.WellFormed) :
    unmarshalProduct (marshalProduct p).1 q = (p, false) := by
  unfold unmarshalProduct marshalProduct
  simp only [parseJSON_encodeProduct]
  exact storeMembers_productTree p q hp

/-! ## Ranges -/

theorem ParseInt_inRange (s : List Char) : InRange (ParseInt s).1 := by
  cases s with
  | nil => simp only [ParseInt]; decide
  | cons c t =>
    simp only [ParseInt]
    split
    · decide
    · rename_i un _ _ _
      split_ifs with h1 h2 h3
      · decide
      · decide
      · simp only [Bool.and_eq_true, decide_eq_true_eq, not_and, not_lt] at h2 h3
        have := h2 h3
        unfold InRange minInt maxInt
        constructor <;> simp only <;> omega
      · simp only [Bool.and_eq_true, Bool.not_eq_true', decide_eq_false_iff_not,
          decide_eq_true_eq, not_and, not_le] at h1 h3
        have := h1 h3
        unfold InRange minInt maxInt
        constructor <;> simp only <;> omega

theorem Atoi_inRange (s : String) : InRange (Atoi s).1 := ParseInt_inRange s.data

theorem wrapInt_inRange (i : Int) : InRange (wrapInt i) := by
  unfold InRange wrapInt minInt maxInt
  constructor <;> omega

theorem wrapInt_of_inRange (i : Int) (h : InRange i) : wrapInt i = i := by
  unfold InRange minInt maxInt at h
  unfold wrapInt
  omega

theorem productOfArgs_wellFormed (a0 a1 a2 a3 a4 a5 a6 a7 a8 : String) :
    (productOfArgs a0 a1 a2 a3 a4 a5 a6 a7 a8).WellFormed :=
  ⟨Atoi_inRange a0, Atoi_inRange a1, Atoi_inRange a2, Atoi_inRange a6, Atoi_inRange a8⟩

theorem storeInt_inRange (old : Int) (v : JValue) (h : InRange old) :
    InRange (storeInt old v).1 := by
  unfold storeInt
  split
  · rename_i lit
    split
    · rename_i i heq
      have := ParseInt_inRange lit
      rw [heq] at this
      exact this
    · exact h
  · exact h
  · exact h

theorem storeMember_wellFormed (p : Product) (key : List Char) (v : JValue)
    (hp : p.WellFormed) : (storeMember p key v).1.WellFormed := by
  obtain ⟨h1, h2, h3, h4, h5⟩ := hp
  unfold storeMember
  split_ifs
  · exact ⟨storeInt_inRange _ v h1, h2, h3, h4, h5⟩
  · exact ⟨h1, storeInt_inRange _ v h2, h3, h4, h5⟩
  · exact ⟨h1, h2, storeInt_inRange _ v h3, h4, h5⟩
  · exact ⟨h1, h2, h3, h4, h5⟩
  · exact ⟨h1, h2, h3, h4, h5⟩
  · exact ⟨h1, h2, h3, h4, h5⟩
  · exact ⟨h1, h2, h3, storeInt_inRange _ v h4, h5⟩
  · exact ⟨h1, h2, h3, h4, h5⟩
  · exact ⟨h1, h2, h3, h4, storeInt_inRange _ v h5⟩
  · exact ⟨h1, h2, h3, h4, h5⟩

theorem storeMembers_wellFormed (ms : List (List Char × JValue)) :
    ∀ (p : Product) (err : Bool), p.WellFormed → (storeMembers p err ms).1.WellFormed := by
  induction ms with
  | nil => intro p err hp; exact hp
  | cons m ms ih =>
    intro p err hp
    obtain ⟨key, v⟩ := m
    rw [storeMembers_cons]
    exact ih _ _ (storeMember_wellFormed p key v hp)

/-- Whatever bytes are unmarshalled, the integer fields stay values of `int`. -/
theorem unmarshalProduct_wellFormed (data : String) (p : Product) (hp : p.WellFormed) :
    (unmarshalProduct data p).1.WellFormed := by
  unfold unmarshalProduct
  split
  · exact hp
  · exact storeMembers_wellFormed _ p false hp
  · exact hp
  · exact hp

theorem zero_wellFormed : Product.zero.WellFormed := by decide

/-! ## The operations as equations -/

theorem addInventory_eq (h : Host) (w : World) (a0 a1 a2 a3 a4 a5 a6 a7 a8 : String) :
    addInventory h w [a0, a1, a2, a3, a4, a5, a6, a7, a8]
      = if h.putFails (Itoa (Atoi a0).1)
            (marshalTransaction (addTransaction h a1 (productOfArgs a0 a1 a2 a3 a4 a5 a6 a7 a8))).1
        then (Response.error "Failed to set transaction ", w)
        else if h.putFails a2 (marshalProduct (productOfArgs a0 a1 a2 a3 a4 a5 a6 a7 a8)).1
        then (Response.error ("Failed to set asset: " ++ a2),
          w.put (Itoa (Atoi a0).1)
            (marshalTransaction (addTransaction h a1 (productOfArgs a0 a1 a2 a3 a4 a5 a6 a7 a8))).1)
        else (Response.success (marshalProduct (productOfArgs a0 a1 a2 a3 a4 a5 a6 a7 a8)).1,
          (w.put (Itoa (Atoi a0).1)
            (marshalTransaction (addTransaction h a1 (productOfArgs a0 a1 a2 a3 a4 a5 a6 a7 a8))).1).put
              a2 (marshalProduct (productOfArgs a0 a1 a2 a3 a4 a5 a6 a7 a8)).1) := by
  have hr : (productOfArgs a0 a1 a2 a3 a4 a5 a6 a7 a8).RetailerId = (Atoi a0).1 := rfl
  simp only [addInventory, marshalTransaction, marshalProduct, PutState, hr]
  split_ifs <;> simp_all

theorem sellFromInventory_eq (h : Host) (w : World) (a0 a1 stored : String) (p0 : Product)
    (hget : (GetState h w a0).1 = some stored)
    (hdec : (unmarshalProduct stored Product.zero).1 = p0) :
    sellFromInventory h w [a0, a1]
      = if p0.Quantity < (Atoi a1).1 then (Response.error "Inventory not sufficient", w)
        else if h.putFails (Itoa p0.RetailerId)
            (marshalTransaction (sellTransaction h (soldProduct p0 (Atoi a1).1))).1
        then (Response.error "Failed to set transaction ", w)
        else if h.putFails a0 (marshalProduct (soldProduct p0 (Atoi a1).1)).1
        then (Response.error "Something went wrong in chaincode",
          w.put (Itoa p0.RetailerId)
            (marshalTransaction (sellTransaction h (soldProduct p0 (Atoi a1).1))).1)
        else (Response.success (marshalProduct (soldProduct p0 (Atoi a1).1)).1,
          (w.put (Itoa p0.RetailerId)
            (marshalTransaction (sellTransaction h (soldProduct p0 (Atoi a1).1))).1).put
            a0 (marshalProduct (soldProduct p0 (Atoi a1).1)).1) := by
  subst hdec
  simp only [sellFromInventory, hget, marshalTransaction, marshalProduct, PutState, soldProduct]
  split_ifs <;> simp_all

theorem sellFromInventory_none (h : Host) (w : World) (a0 a1 : String)
    (hget : (GetState h w a0).1 = none) :
    sellFromInventory h w [a0, a1] = (Response.error "Product not present in inventory", w) := by
  simp only [sellFromInventory, hget]

theorem GetState_ok (h : Host) (w : World) (key : String) (hread : h.getFails key = false) :
    GetState h w key = (w.state key, false) := by
  simp [GetState, hread]

theorem put_state_same (w : World) (key value : String) :
    (w.put key value).state key = some value := by
  simp [World.put]

theorem put_state_other (w : World) (key value k : String) (hk : k ≠ key) :
    (w.put key value).state k = w.state k := by
  simp [World.put, hk]

theorem put_writes (w : World) (key value : String) :
    (w.put key value).writes = w.writes ++ [(key, value)] := rfl

theorem soldProduct_wellFormed (p : Product) (n : Int) (hp : p.WellFormed) :
    (soldProduct p n).WellFormed := by
  obtain ⟨h1, h2, h3, h4, _⟩ := hp
  exact ⟨h1, h2, h3, h4, wrapInt_inRange _⟩

theorem soldProduct_of_fit (p : Product) (n : Int)
    (hle : n ≤ p.Quantity) (hfit : p.Quantity - n ≤ maxInt) :
    soldProduct p n = { p with Quantity := p.Quantity - n } := by
  unfold soldProduct
  rw [wrapInt_of_inRange]
  unfold InRange minInt maxInt at *
  constructor <;> omega

/-! ## Successful calls -/

/-- The stored bytes of a well-formed product decode to it. -/
theorem unmarshal_stored (p : Product) (hp : p.WellFormed) :
    (unmarshalProduct (marshalProduct p).1 Product.zero).1 = p := by
  rw [unmarshal_marshal p Product.zero hp]

/-- A successful sale: response and world. -/
theorem sellFromInventory_success (h : Host) (w : World) (id n : String) (p : Product)
    (hp : p.WellFormed) (hread : h.getFails id = false)
    (hstored : w.state id = some (marshalProduct p).1)
    (hle : (Atoi n).1 ≤ p.Quantity)
    (hput : ∀ k v, h.putFails k v = false) :
    sellFromInventory h w [id, n]
      = (Response.success (marshalProduct (soldProduct p (Atoi n).1)).1,
          (w.put (Itoa p.RetailerId)
            (marshalTransaction (sellTransaction h (soldProduct p (Atoi n).1))).1).put
            id (marshalProduct (soldProduct p (Atoi n).1)).1) := by
  have hget : (GetState h w id).1 = some (marshalProduct p).1 := by
    rw [GetState_ok h w id hread, hstored]
  rw [sellFromInventory_eq h w id n _ p hget (unmarshal_stored p hp),
    if_neg (by omega), hput, hput]
  simp

/-- A rejected sale. -/
theorem sellFromInventory_rejected (h : Host) (w : World) (id n : String) (p : Product)
    (hp : p.WellFormed) (hread : h.getFails id = false)
    (hstored : w.state id = some (marshalProduct p).1)
    (hgt : p.Quantity < (Atoi n).1) :
    sellFromInventory h w [id, n] = (Response.error "Inventory not sufficient", w) := by
  have hget : (GetState h w id).1 = some (marshalProduct p).1 := by
    rw [GetState_ok h w id hread, hstored]
  rw [sellFromInventory_eq h w id n _ p hget (unmarshal_stored p hp), if_pos hgt]

theorem addInventory_success (h : Host) (w : World) (a0 a1 a2 a3 a4 a5 a6 a7 a8 : String)
    (hput1 : h.putFails (Itoa (Atoi a0).1)
      (marshalTransaction (addTransaction h a1 (productOfArgs a0 a1 a2 a3 a4 a5 a6 a7 a8))).1
        = false)
    (hput2 : h.putFails a2 (marshalProduct (productOfArgs a0 a1 a2 a3 a4 a5 a6 a7 a8)).1 = false) :
    addInventory h w [a0, a1, a2, a3, a4, a5, a6, a7, a8]
      = (Response.success (marshalProduct (productOfArgs a0 a1 a2 a3 a4 a5 a6 a7 a8)).1,
          (w.put (Itoa (Atoi a0).1)
            (marshalTransaction (addTransaction h a1 (productOfArgs a0 a1 a2 a3 a4 a5 a6 a7 a8))).1).put
              a2 (marshalProduct (productOfArgs a0 a1 a2 a3 a4 a5 a6 a7 a8)).1) := by
  rw [addInventory_eq, hput1, hput2]
  simp

/-- A successful `addInventory` had nine arguments and wrote the transaction and then
the product it returns. -/
theorem addInventory_success_inv (h : Host) (w : World) (args : List String) (payload : String)
    (hs : (addInventory h w args).1 = Response.success payload) :
    ∃ a0 a1 a2 a3 a4 a5 a6 a7 a8, args = [a0, a1, a2, a3, a4, a5, a6, a7, a8] ∧
      payload = (marshalProduct (productOfArgs a0 a1 a2 a3 a4 a5 a6 a7 a8)).1 ∧
      (addInventory h w args).2
        = (w.put (Itoa (Atoi a0).1)
            (marshalTransaction (addTransaction h a1 (productOfArgs a0 a1 a2 a3 a4 a5 a6 a7 a8))).1).put
              a2 payload := by
  unfold addInventory at hs
  split at hs
  · rename_i a0 a1 a2 a3 a4 a5 a6 a7 a8
    refine ⟨a0, a1, a2, a3, a4, a5, a6, a7, a8, rfl, ?_⟩
    have hs2 : (addInventory h w [a0, a1, a2, a3, a4, a5, a6, a7, a8]).1
        = Response.success payload := hs
    clear hs
    rw [addInventory_eq] at hs2 ⊢
    split_ifs at hs2 ⊢ with c1 c2
    · have hp : (marshalProduct (productOfArgs a0 a1 a2 a3 a4 a5 a6 a7 a8)).1 = payload := by
        simpa using hs2
      subst hp
      exact ⟨rfl, rfl⟩
  · simp at hs

/-- A successful `sellFromInventory` had two arguments, found bytes under `args[0]` and
wrote the transaction and then the product it returns. -/
theorem sellFromInventory_success_inv (h : Host) (w : World) (args : List String)
    (payload : String) (hs : (sellFromInventory h w args).1 = Response.success payload) :
    ∃ a0 a1 stored, args = [a0, a1] ∧ (GetState h w a0).1 = some stored ∧
      ¬ (unmarshalProduct stored Product.zero).1.Quantity < (Atoi a1).1 ∧
      payload = (marshalProduct (soldProduct (unmarshalProduct stored Product.zero).1 (Atoi a1).1)).1 ∧
      (sellFromInventory h w args).2
        = (w.put (Itoa (unmarshalProduct stored Product.zero).1.RetailerId)
            (marshalTransaction (sellTransaction h
              (soldProduct (unmarshalProduct stored Product.zero).1 (Atoi a1).1))).1).put
              a0 payload := by
  match args, hs with
  | [a0, a1], hs =>
    cases hg : (GetState h w a0).1 with
    | none =>
      rw [sellFromInventory_none h w a0 a1 hg] at hs
      simp at hs
    | some stored =>
      refine ⟨a0, a1, stored, rfl, hg, ?_⟩
      have e := sellFromInventory_eq h w a0 a1 stored _ hg rfl
      rw [e] at hs ⊢
      split_ifs at hs ⊢ with c1 c2 c3
      · have hp : (marshalProduct
            (soldProduct (unmarshalProduct stored Product.zero).1 (Atoi a1).1)).1 = payload := by
          simpa using hs
        subst hp
        exact ⟨c1, rfl, rfl⟩
  | [], hs => simp [sellFromInventory] at hs
  | [_], hs => simp [sellFromInventory] at hs
  | _ :: _ :: _ :: _, hs => simp [sellFromInventory] at hs

theorem Invoke_add (h : Host) (w : World) (args : List String) :
    Invoke h w "addInventory" args = addInventory h w args := by
  simp [Invoke]

theorem Invoke_sell (h : Host) (w : World) (args : List String) :
    Invoke h w "sellFromInventory" args = sellFromInventory h w args := by
  unfold Invoke
  rw [if_neg (by decide), if_neg (by decide), if_pos rfl]

theorem newWrites_put_put (w : World) (k1 v1 k2 v2 : String) :
    newWrites w ((w.put k1 v1).put k2 v2) = [(k1, v1), (k2, v2)] := by
  simp [newWrites, World.put]

/-- A successful mutating call wrote a transaction record and then, under the product
key, the record it returns. -/
theorem Invoke_success_inv (h : Host) (w : World) (fn : String) (args : List String)
    (payload : String) (hfn : Mutating fn)
    (hs : (Invoke h w fn args).1 = Response.success payload) :
    ∃ r tx, (Invoke h w fn args).2 = (w.put r tx).put (productKey fn args) payload := by
  rcases hfn with hfn | hfn
  · subst hfn
    rw [Invoke_add] at hs ⊢
    obtain ⟨a0, a1, a2, a3, a4, a5, a6, a7, a8, hargs, _, hw⟩ :=
      addInventory_success_inv h w args payload hs
    subst hargs
    exact ⟨_, _, hw⟩
  · subst hfn
    rw [Invoke_sell] at hs ⊢
    obtain ⟨a0, a1, stored, hargs, _, _, _, hw⟩ :=
      sellFromInventory_success_inv h w args payload hs
    subst hargs
    exact ⟨_, _, hw⟩

theorem viewInventory_present (h : Host) (w : World) (key value : String)
    (hread : h.getFails key = false) (hst : w.state key = some value) :
    viewInventory h w [key] = (Response.success value, w) := by
  simp only [viewInventory, GetState_ok _ _ _ hread, hst]
  simp

theorem put_writes_getLast (w : World) (key value : String) :
    (w.put key value).writes.getLast? = some (key, value) := by
  simp [World.put]

/-! ## The JSON text of a transaction, and `Atoi` outside the range -/

theorem encodeTransaction_eq (t : Transaction) (rest : List Char) :
    encodeTransaction t ++ rest = '\x7b' ::
      (jsonField "txId" (jsonString t.TransactionId) ++ ',' ::
      (jsonField "txTimestamp" (jsonString t.TransactionTimestamp) ++ ',' ::
      (jsonField "txType" (jsonString t.TransactionType) ++ ',' ::
      (jsonField "txOwner" (jsonString t.TransactionOwner) ++ ',' ::
      (jsonField "productInfo" (encodeProduct t.ProductInfo) ++ '\x7d' :: rest))))) := by
  simp only [encodeTransaction, jsonObject, jsonMembers, List.cons_append, List.append_assoc,
    List.nil_append]

theorem parseValue_encodeTransaction (g : Nat) (t : Transaction) (rest : List Char) :
    parseValue (g + 17) (encodeTransaction t ++ rest) = some (transactionTree t, rest) := by
  have k5 := parseMembers_last (g + 11) "productInfo" (encodeProduct t.ProductInfo) rest _
    (by decide) (parseValue_encodeProduct g t.ProductInfo ('\x7d' :: rest))
  have k4 := parseMembers_more (g + 12) "txOwner" (jsonString t.TransactionOwner) _ _ _ _
    (by decide) (parseValue_jsonString (g + 11) t.TransactionOwner _ _) k5
  have k3 := parseMembers_more (g + 13) "txType" (jsonString t.TransactionType) _ _ _ _
    (by decide) (parseValue_jsonString (g + 12) t.TransactionType _ _) k4
  have k2 := parseMembers_more (g + 14) "txTimestamp" (jsonString t.TransactionTimestamp)
    _ _ _ _ (by decide) (parseValue_jsonString (g + 13) t.TransactionTimestamp _ _) k3
  have k1 := parseMembers_more (g + 15) "txId" (jsonString t.TransactionId) _ _ _ _
    (by decide) (parseValue_jsonString (g + 14) t.TransactionId _ _) k2
  rw [encodeTransaction_eq, parseValue, startsWith_cons _ '\x7b' _ (by decide),
    afterFirst_cons '\x7b' _ (by decide)]
  have hq : startsWith '\x7d' (jsonField "txId" (jsonString t.TransactionId) ++ ',' ::
      (jsonField "txTimestamp" (jsonString t.TransactionTimestamp) ++ ',' ::
      (jsonField "txType" (jsonString t.TransactionType) ++ ',' ::
      (jsonField "txOwner" (jsonString t.TransactionOwner) ++ ',' ::
      (jsonField "productInfo" (encodeProduct t.ProductInfo) ++ '\x7d' :: rest))))) = false := by
    unfold jsonField
    rw [List.cons_append, startsWith_cons _ '"' _ (by decide)]
    decide
  rw [hq, k1]
  simp [transactionTree]

theorem encodeTransaction_length (t : Transaction) : 16 ≤ (encodeTransaction t).length := by
  have h := congrArg List.length (encodeTransaction_eq t [])
  have hp := encodeProduct_length t.ProductInfo
  simp only [List.append_nil, List.length_cons, List.length_append, jsonField] at h
  omega

theorem parseJSON_encodeTransaction (t : Transaction) :
    parseJSON (encodeTransaction t) = some (transactionTree t) := by
  obtain ⟨g, hg⟩ : ∃ g, (encodeTransaction t).length + 1 = g + 17 :=
    ⟨(encodeTransaction t).length - 16, by have := encodeTransaction_length t; omega⟩
  have h := parseValue_encodeTransaction g t []
  rw [List.append_nil] at h
  simp only [parseJSON, hg, h, skipSpace, if_true]

theorem storeTransactionMembers_cons (t : Transaction) (err : Bool) (key : List Char)
    (v : JValue) (ms : List (List Char × JValue)) :
    storeTransactionMembers t err ((key, v) :: ms)
      = storeTransactionMembers (storeTransactionMember t key v).1
          (err || (storeTransactionMember t key v).2) ms := rfl

theorem storeTransactionMember_txId (b0 b1 b2 b3 : String) (q : Product) (v : JValue) :
    storeTransactionMember (Transaction.mk b0 b1 b2 b3 q) "txId".data v
      = (Transaction.mk (storeString b0 v).1 b1 b2 b3 q, (storeString b0 v).2) := by
  unfold storeTransactionMember
  rw [if_pos (by decide)]

theorem storeTransactionMember_txTimestamp (b0 b1 b2 b3 : String) (q : Product) (v : JValue) :
    storeTransactionMember (Transaction.mk b0 b1 b2 b3 q) "txTimestamp".data v
      = (Transaction.mk b0 (storeString b1 v).1 b2 b3 q, (storeString b1 v).2) := by
  unfold storeTransactionMember
  rw [if_neg (by decide), if_pos (by decide)]

theorem storeTransactionMember_txType (b0 b1 b2 b3 : String) (q : Product) (v : JValue) :
    storeTransactionMember (Transaction.mk b0 b1 b2 b3 q) "txType".data v
      = (Transaction.mk b0 b1 (storeString b2 v).1 b3 q, (storeString b2 v).2) := by
  unfold storeTransactionMember
  rw [if_neg (by decide), if_neg (by decide), if_pos (by decide)]

theorem storeTransactionMember_txOwner (b0 b1 b2 b3 : String) (q : Product) (v : JValue) :
    storeTransactionMember (Transaction.mk b0 b1 b2 b3 q) "txOwner".data v
      = (Transaction.mk b0 b1 b2 (storeString b3 v).1 q, (storeString b3 v).2) := by
  unfold storeTransactionMember
  rw [if_neg (by decide), if_neg (by decide), if_neg (by decide), if_pos (by decide)]

theorem storeTransactionMember_productInfo (b0 b1 b2 b3 : String) (q : Product)
    (ms : List (List Char × JValue)) :
    storeTransactionMember (Transaction.mk b0 b1 b2 b3 q) "productInfo".data (JValue.obj ms)
      = (Transaction.mk b0 b1 b2 b3 (storeMembers q false ms).1,
          (storeMembers q false ms).2) := by
  unfold storeTransactionMember
  rw [if_neg (by decide), if_neg (by decide), if_neg (by decide), if_neg (by decide),
    if_pos (by decide)]

/-- Unmarshalling the JSON text of a transaction gives the transaction back, whatever
the target held before. -/
theorem unmarshalTransaction_marshal (t t0 : Transaction) (hp : t.ProductInfo.WellFormed) :
    unmarshalTransaction (marshalTransaction t).1 t0 = (t, false) := by
  unfold unmarshalTransaction marshalTransaction
  simp only [parseJSON_encodeTransaction]
  obtain ⟨b0, b1, b2, b3, q⟩ := t0
  obtain ⟨c0, c1, c2, c3, p⟩ := t
  show storeTransactionMembers (Transaction.mk b0 b1 b2 b3 q) false
    [ ("txId".data, JValue.str c0.data), ("txTimestamp".data, JValue.str c1.data),
      ("txType".data, JValue.str c2.data), ("txOwner".data, JValue.str c3.data),
      ("productInfo".data, productTree p) ] = _
  rw [storeTransactionMembers_cons, storeTransactionMember_txId, storeString_data]
  rw [storeTransactionMembers_cons, storeTransactionMember_txTimestamp, storeString_data]
  rw [storeTransactionMembers_cons, storeTransactionMember_txType, storeString_data]
  rw [storeTransactionMembers_cons, storeTransactionMember_txOwner, storeString_data]
  unfold productTree
  rw [storeTransactionMembers_cons, storeTransactionMember_productInfo,
    storeMembers_productTree p q hp]
  rfl

theorem ParseInt_range_value (s : List Char) (h : (ParseInt s).2 = some NumError.errRange) :
    (ParseInt s).1 = if s.head? = some '-' then minInt else maxInt := by
  cases s with
  | nil => simp [ParseInt] at h
  | cons c t =>
    simp only [ParseInt] at h ⊢
    split at h
    · simp at h
    · rename_i un e hne heq
      by_cases hc : c = '-'
      · subst hc
        simp only [decide_True, Bool.not_true, Bool.false_and, Bool.true_and,
          decide_eq_true_eq, List.head?_cons, if_true] at h ⊢
        rw [if_neg Bool.false_ne_true] at h ⊢
        split_ifs at h ⊢
        rfl
      · have hh : ¬ ((c :: t).head? = some '-') := by simpa using hc
        simp only [hc, decide_False, Bool.not_false, Bool.false_and, Bool.true_and,
          decide_eq_true_eq] at h ⊢
        rw [if_neg hh]
        split_ifs at h ⊢ with h1 h2
        · rfl
        · exact absurd h2 (by simp)

/-- On a range error `Atoi` returns the bound of `int` on the side of the sign. -/
theorem Atoi_range_value (s : String) (h : (Atoi s).2 = some NumError.errRange) :
    (Atoi s).1 = signBound s :=
  ParseInt_range_value s.data h

theorem parseUintLoop_step_overflow (c : Char) (d v : Nat) (rest : List Char)
    (hc : digitVal c = some d) (hb : maxUint64 < v * 10 + d) :
    parseUintLoop (c :: rest) v = (maxUint64, some NumError.errRange) := by
  simp only [maxUint64] at hb
  simp only [parseUintLoop, hc, maxUint64]
  split_ifs
  · rfl
  · rfl

theorem parseUintLoop_overflow (n : Nat) : ∀ (v : Nat) (rest : List Char),
    maxUint64 < v * 10 ^ (Nat.toDigits 10 n).length + n →
    parseUintLoop (Nat.toDigits 10 n ++ rest) v = (maxUint64, some NumError.errRange) := by
  induction n using Nat.strong_induction_on with
  | _ n ih =>
    intro v rest hb
    by_cases h : n < 10
    · rw [toDigits_lt n h] at hb ⊢
      simp only [List.length_singleton, pow_one] at hb
      exact parseUintLoop_step_overflow _ n v rest (digitVal_digitChar n h) hb
    · have hge : 10 ≤ n := by omega
      rw [toDigits_ge n hge] at hb ⊢
      simp only [List.length_append, List.length_singleton, pow_succ] at hb
      have hd : n % 10 < 10 := Nat.mod_lt _ (by decide)
      generalize hX : v * 10 ^ (Nat.toDigits 10 (n / 10)).length = X at hb
      have hb' : v * (10 ^ (Nat.toDigits 10 (n / 10)).length * 10) = X * 10 := by
        rw [← hX]; ring
      rw [hb'] at hb
      rw [List.append_assoc]
      by_cases hpre : maxUint64 < X + n / 10
      · exact ih (n / 10) (by omega) v _ (by rw [hX]; exact hpre)
      · rw [parseUintLoop_toDigits (n / 10) v _ (by rw [hX]; omega), hX, List.singleton_append]
        apply parseUintLoop_step_overflow _ (n % 10) _ rest (digitVal_digitChar _ hd)
        simp only [maxUint64] at hb ⊢
        omega

theorem ParseUint_toDigits_large (n : Nat) (h : maxUint64 < n) :
    ParseUint (Nat.toDigits 10 n) = (maxUint64, some NumError.errRange) := by
  obtain ⟨_, d, ds, hd, _⟩ := numeral_toDigits n
  have h1 := parseUintLoop_overflow n 0 [] (by simpa using h)
  simp only [List.append_nil] at h1
  rw [hd] at h1 ⊢
  exact h1

/-- The decimal rendering of an integer above the range of `int` parses, with a range
error, to `maxInt`; that of an integer below the range to `minInt`. -/
theorem ParseInt_Itoa_outside (i : Int) :
    (maxInt < i → ParseInt (Itoa i).data = (maxInt, some NumError.errRange)) ∧
      (i < minInt → ParseInt (Itoa i).data = (minInt, some NumError.errRange)) := by
  unfold minInt maxInt
  cases i with
  | ofNat m =>
    refine ⟨fun hi => ?_, fun hi => ?_⟩
    · rw [Itoa_ofNat]
      have hm : 9223372036854775808 ≤ m := by
        have : (9223372036854775807 : Int) < ((m : Nat) : Int) := hi
        omega
      obtain ⟨hall, d, ds, hd, _⟩ := numeral_toDigits m
      have hdig := hall d (by rw [hd]; simp)
      have h1 : d ≠ '-' := digit_ne_of_not_digit d '-' hdig rfl
      have h2 : d ≠ '+' := digit_ne_of_not_digit d '+' hdig rfl
      by_cases hbig : maxUint64 < m
      · have hu := ParseUint_toDigits_large m hbig
        rw [hd] at hu ⊢
        simp only [ParseInt, h1, h2, or_self, if_false, hu, decide_False, Bool.not_false,
          Bool.true_and, decide_eq_true_eq, maxUint64]
        rw [if_pos (by omega)]
        rfl
      · have hu := ParseUint_toDigits m (by omega)
        rw [hd] at hu ⊢
        simp only [ParseInt, h1, h2, or_self, if_false, hu, decide_False, Bool.not_false,
          Bool.true_and, decide_eq_true_eq]
        rw [if_pos hm]
        rfl
    · exfalso
      have : ((m : Nat) : Int) < -9223372036854775808 := hi
      omega
  | negSucc m =>
    refine ⟨fun hi => ?_, fun hi => ?_⟩
    · exfalso
      rw [Int.negSucc_eq] at hi
      omega
    · rw [Itoa_negSucc]
      have hm : 9223372036854775808 < m + 1 := by
        rw [Int.negSucc_eq] at hi
        omega
      by_cases hbig : maxUint64 < m + 1
      · have hu := ParseUint_toDigits_large (m + 1) hbig
        simp only [ParseInt, or_true, if_true, hu, decide_True, Bool.not_true, Bool.false_and,
          Bool.true_and, decide_eq_true_eq, maxUint64]
        rw [if_neg (by simp), if_pos (by omega)]
        rfl
      · have hu := ParseUint_toDigits (m + 1) (by omega)
        simp only [ParseInt, or_true, if_true, hu, decide_True, Bool.not_true, Bool.false_and,
          Bool.true_and, decide_eq_true_eq]
        rw [if_neg (by simp), if_pos hm]
        rfl

/-! ## Errors, reruns and the keys a call writes -/

theorem ParseInt_error_value (s : List Char) :
    ((ParseInt s).2 = some NumError.errSyntax → (ParseInt s).1 = 0) ∧
      ((ParseInt s).2 = some NumError.errRange →
        (ParseInt s).1 = maxInt ∨ (ParseInt s).1 = minInt) := by
  cases s with
  | nil => simp [ParseInt]
  | cons c t =>
    simp only [ParseInt]
    split
    · simp
    · split_ifs <;> simp

/-- The value `Atoi` returns next to an error: 0 with a syntax error, the nearest bound
of `int` with a range error. -/
theorem Atoi_error_value (s : String) :
    ((Atoi s).2 = some NumError.errSyntax → (Atoi s).1 = 0) ∧
      ((Atoi s).2 = some NumError.errRange → (Atoi s).1 = maxInt ∨ (Atoi s).1 = minInt) :=
  ParseInt_error_value s.data

/-- `viewInventory` returns the world it was given. -/
theorem viewInventory_world (h : Host) (w : World) (args : List String) :
    (viewInventory h w args).2 = w := by
  unfold viewInventory
  split
  · dsimp only
    split_ifs
    · rfl
    · split <;> rfl
  · rfl

theorem GetState_congr (h h' : Host) (w : World) (key : String)
    (hget : h.getFails = h'.getFails) : GetState h w key = GetState h' w key := by
  unfold GetState
  rw [hget]

/-- Two runs of `addInventory` that differ in the generated identifier and time. -/
theorem addInventory_two_runs (h h' : Host) (w : World) (args : List String)
    (hput : ∀ k v, h.putFails k v = false) (hput' : ∀ k v, h'.putFails k v = false) :
    (addInventory h w args).1 = (addInventory h' w args).1 ∧
      ∀ k, (addInventory h w args).2.state k = (addInventory h' w args).2.state k ∨
        ∃ t, (addInventory h w args).2.state k = some (marshalTransaction t).1 ∧
          (addInventory h' w args).2.state k = some (marshalTransaction (t.restamp h')).1 ∧
          t.TransactionId = h.xidNew ∧ t.TransactionTimestamp = h.timeNow := by
  by_cases hl : ∃ a0 a1 a2 a3 a4 a5 a6 a7 a8, args = [a0, a1, a2, a3, a4, a5, a6, a7, a8]
  · obtain ⟨a0, a1, a2, a3, a4, a5, a6, a7, a8, rfl⟩ := hl
    rw [addInventory_success h w a0 a1 a2 a3 a4 a5 a6 a7 a8 (hput _ _) (hput _ _),
      addInventory_success h' w a0 a1 a2 a3 a4 a5 a6 a7 a8 (hput' _ _) (hput' _ _)]
    refine ⟨rfl, fun k => ?_⟩
    by_cases hk : k = a2
    · left
      subst hk
      rw [put_state_same, put_state_same]
    · by_cases hr : k = Itoa (Atoi a0).1
      · right
        subst hr
        refine ⟨addTransaction h a1 (productOfArgs a0 a1 a2 a3 a4 a5 a6 a7 a8), ?_, ?_, rfl, rfl⟩
        · rw [put_state_other _ _ _ _ hk, put_state_same]
        · rw [put_state_other _ _ _ _ hk, put_state_same]
          rfl
      · left
        rw [put_state_other _ _ _ _ hk, put_state_other _ _ _ _ hk,
          put_state_other _ _ _ _ hr, put_state_other _ _ _ _ hr]
  · have e : ∀ g : Host, addInventory g w args
        = (Response.error "Incorrect arguments. Expecting 9", w) := by
      intro g
      unfold addInventory
      split
      · rename_i a0 a1 a2 a3 a4 a5 a6 a7 a8
        exact absurd ⟨a0, a1, a2, a3, a4, a5, a6, a7, a8, rfl⟩ hl
      · rfl
    rw [e h, e h']
    exact ⟨rfl, fun k => Or.inl rfl⟩

/-- Two runs of `sellFromInventory` that differ in the generated identifier and time. -/
theorem sellFromInventory_two_runs (h h' : Host) (w : World) (args : List String)
    (hget : h.getFails = h'.getFails)
    (hput : ∀ k v, h.putFails k v = false) (hput' : ∀ k v, h'.putFails k v = false) :
    (sellFromInventory h w args).1 = (sellFromInventory h' w args).1 ∧
      ∀ k, (sellFromInventory h w args).2.state k = (sellFromInventory h' w args).2.state k ∨
        ∃ t, (sellFromInventory h w args).2.state k = some (marshalTransaction t).1 ∧
          (sellFromInventory h' w args).2.state k = some (marshalTransaction (t.restamp h')).1 ∧
          t.TransactionId = h.xidNew ∧ t.TransactionTimestamp = h.timeNow := by
  by_cases hl : ∃ a0 a1, args = [a0, a1]
  · obtain ⟨a0, a1, rfl⟩ := hl
    have hg := GetState_congr h h' w a0 hget
    cases hs : (GetState h w a0).1 with
    | none =>
      rw [sellFromInventory_none h w a0 a1 hs, sellFromInventory_none h' w a0 a1 (hg ▸ hs)]
      exact ⟨rfl, fun k => Or.inl rfl⟩
    | some stored =>
      rw [sellFromInventory_eq h w a0 a1 stored _ hs rfl,
        sellFromInventory_eq h' w a0 a1 stored _ (hg ▸ hs) rfl]
      by_cases hq : (unmarshalProduct stored Product.zero).1.Quantity < (Atoi a1).1
      · rw [if_pos hq, if_pos hq]
        exact ⟨rfl, fun k => Or.inl rfl⟩
      · rw [if_neg hq, if_neg hq, hput, hput, hput', hput']
        rw [if_neg Bool.false_ne_true, if_neg Bool.false_ne_true, if_neg Bool.false_ne_true,
          if_neg Bool.false_ne_true]
        refine ⟨rfl, fun k => ?_⟩
        by_cases hk : k = a0
        · left
          subst hk
          rw [put_state_same, put_state_same]
        · by_cases hr : k = Itoa (unmarshalProduct stored Product.zero).1.RetailerId
          · right
            subst hr
            refine ⟨sellTransaction h
              (soldProduct (unmarshalProduct stored Product.zero).1 (Atoi a1).1), ?_, ?_, rfl, rfl⟩
            · rw [put_state_other _ _ _ _ hk, put_state_same]
            · rw [put_state_other _ _ _ _ hk, put_state_same]
              rfl
          · left
            rw [put_state_other _ _ _ _ hk, put_state_other _ _ _ _ hk,
              put_state_other _ _ _ _ hr, put_state_other _ _ _ _ hr]
  · have e : ∀ g : Host, sellFromInventory g w args
        = (Response.error "Incorrect arguments. Expecting 2", w) := by
      intro g
      unfold sellFromInventory
      split
      · rename_i a0 a1
        exact absurd ⟨a0, a1, rfl⟩ hl
      · rfl
    rw [e h, e h']
    exact ⟨rfl, fun k => Or.inl rfl⟩

theorem viewInventory_congr (h h' : Host) (w : World) (args : List String)
    (hget : h.getFails = h'.getFails) : viewInventory h w args = viewInventory h' w args := by
  unfold viewInventory GetState
  rw [hget]

/-- The world after an invocation: nothing was written, or the transaction was, or the
transaction and then the product were. -/
theorem Invoke_world_cases (h : Host) (w : World) (fn : String) (args : List String) :
    (Invoke h w fn args).2 = w ∨
      (∃ tx, (Invoke h w fn args).2 = w.put (transactionKey w fn args) tx) ∨
      ∃ tx pb, (Invoke h w fn args).2
        = (w.put (transactionKey w fn args) tx).put (productKey fn args) pb := by
  unfold Invoke
  split_ifs with c1 c2 c3 c4
  · subst c1
    by_cases hl : ∃ a0 a1 a2 a3 a4 a5 a6 a7 a8, args = [a0, a1, a2, a3, a4, a5, a6, a7, a8]
    · obtain ⟨a0, a1, a2, a3, a4, a5, a6, a7, a8, rfl⟩ := hl
      rw [addInventory_eq]
      split_ifs
      · exact Or.inl rfl
      · exact Or.inr (Or.inl ⟨_, rfl⟩)
      · exact Or.inr (Or.inr ⟨_, _, rfl⟩)
    · left
      unfold addInventory
      split
      · rename_i a0 a1 a2 a3 a4 a5 a6 a7 a8
        exact absurd ⟨a0, a1, a2, a3, a4, a5, a6, a7, a8, rfl⟩ hl
      · rfl
  · exact Or.inl (viewInventory_world h w args)
  · subst c3
    by_cases hl : ∃ a0 a1, args = [a0, a1]
    · obtain ⟨a0, a1, rfl⟩ := hl
      cases hs : (GetState h w a0).1 with
      | none =>
        rw [sellFromInventory_none h w a0 a1 hs]
        exact Or.inl rfl
      | some stored =>
        have hst : w.state a0 = some stored := by
          unfold GetState at hs
          split_ifs at hs
          exact hs
        have hk : transactionKey w "sellFromInventory" [a0, a1]
            = Itoa (unmarshalProduct stored Product.zero).1.RetailerId := by
          unfold transactionKey
          rw [if_neg (by decide)]
          show Itoa (unmarshalProduct ((w.state a0).getD "") Product.zero).1.RetailerId = _
          rw [hst]
          rfl
        rw [sellFromInventory_eq h w a0 a1 stored _ hs rfl, hk]
        split_ifs
        · exact Or.inl rfl
        · exact Or.inl rfl
        · exact Or.inr (Or.inl ⟨_, rfl⟩)
        · exact Or.inr (Or.inr ⟨_, _, rfl⟩)
    · left
      unfold sellFromInventory
      split
      · rename_i a0 a1
        exact absurd ⟨a0, a1, rfl⟩ hl
      · rfl
  · exact Or.inl (viewInventory_world h w args)
  · exact Or.inl rfl

theorem put_state_isSome (w : World) (key value p : String) (hp : (w.state p).isSome = true) :
    ((w.put key value).state p).isSome = true := by
  by_cases hk : p = key
  · subst hk
    rw [put_state_same]
    rfl
  · rw [put_state_other _ _ _ _ hk]
    exact hp

/-! ## The properties of the operations -/

set_option maxRecDepth 1000000

/-- C1 (counterexample): key "100" holds the serialized product with quantity 0 and the
argument "-9223372036854775808" parses to a value below 0, so the claim promises
quantity `0 - n = 9223372036854775808`; the call succeeds but returns and stores the
product with quantity -9223372036854775808, because Go's subtraction wraps around. -/
theorem sell_wraps_counterexample :
    (Atoi "-9223372036854775808").1 ≤ (0 : Int) ∧
    sellFromInventory (reliableHost "9m4e2mr0ui3e8a215n4g" "2018-05-01T12:00:00Z")
        (World.empty.put "100"
          (marshalProduct ⟨1, 2, 100, "Shoe", "Acme", "Run", 9, "Red", 0⟩).1)
        ["100", "-9223372036854775808"]
      = (Response.success
          (marshalProduct ⟨1, 2, 100, "Shoe", "Acme", "Run", 9, "Red", -9223372036854775808⟩).1,
         ((World.empty.put "100"
            (marshalProduct ⟨1, 2, 100, "Shoe", "Acme", "Run", 9, "Red", 0⟩).1).put "1"
            (marshalTransaction ⟨"9m4e2mr0ui3e8a215n4g", "2018-05-01T12:00:00Z", "sell", "1",
              ⟨1, 2, 100, "Shoe", "Acme", "Run", 9, "Red", -9223372036854775808⟩⟩).1).put "100"
            (marshalProduct
              ⟨1, 2, 100, "Shoe", "Acme", "Run", 9, "Red", -9223372036854775808⟩).1) ∧
    (-9223372036854775808 : Int) ≠ 0 - (Atoi "-9223372036854775808").1 := by
  refine ⟨by decide, ?_, by decide⟩
  have hp : (⟨1, 2, 100, "Shoe", "Acme", "Run", 9, "Red", 0⟩ : Product).WellFormed := by decide
  rw [sellFromInventory_success _ _ "100" "-9223372036854775808" _ hp rfl
    (put_state_same _ _ _) (by decide) (fun _ _ => rfl)]
  rfl

/-- C1 (amended): if key `id` holds the serialized product `p`, the store calls of the
invocation succeed, and the argument `n` parses to a value with `n ≤ p.Quantity` whose
difference `p.Quantity - n` still fits Go's `int` (always so when `n ≥ 0`), then
`sellFromInventory [id, n]` succeeds, returns and stores under `id` the product with
quantity `p.Quantity - n`, after writing under the retailer key bytes that decode,
without error, to the transaction of type "sell" whose snapshot is `p` with quantity
`p.Quantity - n`. -/
theorem sellFromInventory_decrements (h : Host) (w : World) (id n : String) (p : Product)
    (hp : p.WellFormed) (hread : h.getFails id = false)
    (hstored : w.state id = some (marshalProduct p).1)
    (hput : ∀ k v, h.putFails k v = false)
    (hle : (Atoi n).1 ≤ p.Quantity) (hfit : p.Quantity - (Atoi n).1 ≤ maxInt) :
    (sellFromInventory h w [id, n]).1
        = Response.success (marshalProduct { p with Quantity := p.Quantity - (Atoi n).1 }).1 ∧
      (sellFromInventory h w [id, n]).2.state id
        = some (marshalProduct { p with Quantity := p.Quantity - (Atoi n).1 }).1 ∧
      (unmarshalProduct (marshalProduct { p with Quantity := p.Quantity - (Atoi n).1 }).1
          Product.zero) = ({ p with Quantity := p.Quantity - (Atoi n).1 }, false) ∧
      (∃ tx : String,
        (sellFromInventory h w [id, n]).2.writes
          = w.writes ++
            [(Itoa p.RetailerId, tx),
             (id, (marshalProduct { p with Quantity := p.Quantity - (Atoi n).1 }).1)] ∧
        tx = (marshalTransaction
               { TransactionId := h.xidNew, TransactionTimestamp := h.timeNow,
                 TransactionType := "sell", TransactionOwner := Itoa p.RetailerId,
                 ProductInfo := { p with Quantity := p.Quantity - (Atoi n).1 } }).1 ∧
        unmarshalTransaction tx Transaction.zero
          = ({ TransactionId := h.xidNew, TransactionTimestamp := h.timeNow,
               TransactionType := "sell", TransactionOwner := Itoa p.RetailerId,
               ProductInfo := { p with Quantity := p.Quantity - (Atoi n).1 } }, false) ∧
        (unmarshalTransaction tx Transaction.zero).1.TransactionType = "sell" ∧
        (unmarshalTransaction tx Transaction.zero).1.ProductInfo.Quantity
          = p.Quantity - (Atoi n).1) := by
  have hwf : ({ p with Quantity := p.Quantity - (Atoi n).1 } : Product).WellFormed := by
    rw [← soldProduct_of_fit p _ hle hfit]
    exact soldProduct_wellFormed p _ hp
  rw [sellFromInventory_success h w id n p hp hread hstored hle hput,
    soldProduct_of_fit p _ hle hfit]
  refine ⟨rfl, put_state_same _ _ _, unmarshal_marshal _ _ hwf, _, ?_, rfl, ?_⟩
  · simp [World.put, sellTransaction]
  · rw [unmarshalTransaction_marshal _ _ hwf]
    exact ⟨rfl, rfl, rfl⟩

/-- Witness for C1 (amended): 20 of 50 units are sold; the bytes written under "1" decode
to the transaction of type "sell" with snapshot quantity 30. -/
theorem sellFromInventory_decrements_witness :
    (sellFromInventory (reliableHost "9m4e2mr0ui3e8a215n4g" "2018-05-01T12:00:00Z")
        (World.empty.put "100"
          (marshalProduct ⟨1, 2, 100, "Shoe", "Acme", "Run", 9, "Red", 50⟩).1)
        ["100", "20"]).1
      = Response.success (marshalProduct ⟨1, 2, 100, "Shoe", "Acme", "Run", 9, "Red", 30⟩).1 ∧
    ∃ tx : String,
      (sellFromInventory (reliableHost "9m4e2mr0ui3e8a215n4g" "2018-05-01T12:00:00Z")
          (World.empty.put "100"
            (marshalProduct ⟨1, 2, 100, "Shoe", "Acme", "Run", 9, "Red", 50⟩).1)
          ["100", "20"]).2.writes
        = [("100", (marshalProduct ⟨1, 2, 100, "Shoe", "Acme", "Run", 9, "Red", 50⟩).1),
           ("1", tx),
           ("100", (marshalProduct ⟨1, 2, 100, "Shoe", "Acme", "Run", 9, "Red", 30⟩).1)] ∧
      unmarshalTransaction tx Transaction.zero
        = (⟨"9m4e2mr0ui3e8a215n4g", "2018-05-01T12:00:00Z", "sell", "1",
            ⟨1, 2, 100, "Shoe", "Acme", "Run", 9, "Red", 30⟩⟩, false) :=
  have key := sellFromInventory_decrements
    (reliableHost "9m4e2mr0ui3e8a215n4g" "2018-05-01T12:00:00Z")
    (World.empty.put "100" (marshalProduct ⟨1, 2, 100, "Shoe", "Acme", "Run", 9, "Red", 50⟩).1)
    "100" "20" ⟨1, 2, 100, "Shoe", "Acme", "Run", 9, "Red", 50⟩ (by decide) rfl
    (put_state_same _ _ _) (fun _ _ => rfl) (by decide) (by decide)
  ⟨key.1, key.2.2.2.elim fun tx htx => ⟨tx, htx.1, htx.2.1.symm ▸ (by decide)⟩⟩

/-- C2: if key `id` holds the serialized product `p` and the argument parses to more
than `p.Quantity`, `sellFromInventory [id, n]` returns the error "Inventory not
sufficient" and the world (stored values and write log) is unchanged. -/
theorem sellFromInventory_insufficient (h : Host) (w : World) (id n : String) (p : Product)
    (hp : p.WellFormed) (hread : h.getFails id = false)
    (hstored : w.state id = some (marshalProduct p).1)
    (hgt : p.Quantity < (Atoi n).1) :
    sellFromInventory h w [id, n] = (Response.error "Inventory not sufficient", w) ∧
      (sellFromInventory h w [id, n]).2.state id = some (marshalProduct p).1 := by
  rw [sellFromInventory_rejected h w id n p hp hread hstored hgt]
  exact ⟨rfl, hstored⟩

/-- Witness for C2: 100 units are asked of a stock of 30. -/
theorem sellFromInventory_insufficient_witness :
    sellFromInventory (reliableHost "9m4e2mr0ui3e8a215n4g" "2018-05-01T12:00:00Z")
        (World.empty.put "100"
          (marshalProduct ⟨1, 2, 100, "Shoe", "Acme", "Run", 9, "Red", 30⟩).1)
        ["100", "100"]
      = (Response.error "Inventory not sufficient",
          World.empty.put "100"
            (marshalProduct ⟨1, 2, 100, "Shoe", "Acme", "Run", 9, "Red", 30⟩).1) :=
  (sellFromInventory_insufficient (reliableHost "9m4e2mr0ui3e8a215n4g" "2018-05-01T12:00:00Z")
    (World.empty.put "100" (marshalProduct ⟨1, 2, 100, "Shoe", "Acme", "Run", 9, "Red", 30⟩).1)
    "100" "100" ⟨1, 2, 100, "Shoe", "Acme", "Run", 9, "Red", 30⟩ (by decide) rfl
    (put_state_same _ _ _) (by decide)).1

/-- C3: if nothing is stored under `id`, or the read of `id` fails, then for every
argument `n` the call `sellFromInventory [id, n]` returns the error "Product not present
in inventory" and the world (stored values and write log) is unchanged. -/
theorem sellFromInventory_not_found (h : Host) (w : World) (id : String)
    (hnone : w.state id = none ∨ h.getFails id = true) (n : String) :
    sellFromInventory h w [id, n] = (Response.error "Product not present in inventory", w) := by
  apply sellFromInventory_none
  unfold GetState
  rcases hnone with hn | hn
  · split_ifs
    · rfl
    · exact hn
  · rw [if_pos hn]

/-- Witness for C3: a sale on the empty world. -/
theorem sellFromInventory_not_found_witness :
    sellFromInventory (reliableHost "9m4e2mr0ui3e8a215n4g" "2018-05-01T12:00:00Z") World.empty
        ["100", "20"]
      = (Response.error "Product not present in inventory", World.empty) :=
  sellFromInventory_not_found (reliableHost "9m4e2mr0ui3e8a215n4g" "2018-05-01T12:00:00Z")
    World.empty "100" (Or.inl rfl) "20"

/-- C4 (counterexample): on the empty world, `addInventory` with the quantity argument
"-5" succeeds and both returns and stores under "100" a product whose quantity is -5. -/
theorem add_negative_quantity_counterexample :
    Invoke (reliableHost "9m4e2mr0ui3e8a215n4g" "2018-05-01T12:00:00Z") (run World.empty [])
        "addInventory" ["1", "2", "100", "Shoe", "Acme", "Run", "9", "Red", "-5"]
      = (Response.success (marshalProduct ⟨1, 2, 100, "Shoe", "Acme", "Run", 9, "Red", -5⟩).1,
          (World.empty.put "1"
            (marshalTransaction ⟨"9m4e2mr0ui3e8a215n4g", "2018-05-01T12:00:00Z", "add", "2",
              ⟨1, 2, 100, "Shoe", "Acme", "Run", 9, "Red", -5⟩⟩).1).put "100"
            (marshalProduct ⟨1, 2, 100, "Shoe", "Acme", "Run", 9, "Red", -5⟩).1) ∧
    (unmarshalProduct (marshalProduct ⟨1, 2, 100, "Shoe", "Acme", "Run", 9, "Red", -5⟩).1
        Product.zero).1.Quantity = -5 ∧
    ¬ (0 : Int) ≤ -5 := by
  refine ⟨?_, ?_, by decide⟩
  · rw [Invoke_add, addInventory_success _ _ _ _ _ _ _ _ _ _ _ rfl rfl]
    rfl
  · rw [unmarshal_marshal _ _ (by decide)]

/-- C4 (amended): in every world reachable from the empty one by any sequence of
invocations, a successful `addInventory` or `sellFromInventory` whose quantity argument
(`args[8]`, respectively `args[1]`) parses to a non-negative integer returns a product
record with quantity `≥ 0`, and that record is what is then stored under the product
key. -/
theorem quantity_nonneg_of_nonneg_argument (calls : List Call) (h : Host) (fn : String)
    (args : List String) (payload : String) (hfn : Mutating fn)
    (hq : 0 ≤ (Atoi (quantityArg fn args)).1)
    (hs : (Invoke h (run World.empty calls) fn args).1 = Response.success payload) :
    0 ≤ (unmarshalProduct payload Product.zero).1.Quantity ∧
      (Invoke h (run World.empty calls) fn args).2.state (productKey fn args) = some payload := by
  constructor
  · rcases hfn with hfn | hfn
    · subst hfn
      rw [Invoke_add] at hs
      obtain ⟨a0, a1, a2, a3, a4, a5, a6, a7, a8, hargs, hpay, _⟩ :=
        addInventory_success_inv h _ args payload hs
      subst hargs hpay
      rw [unmarshal_marshal _ _ (productOfArgs_wellFormed a0 a1 a2 a3 a4 a5 a6 a7 a8)]
      exact hq
    · subst hfn
      rw [Invoke_sell] at hs
      obtain ⟨a0, a1, stored, hargs, _, hnot, hpay, _⟩ :=
        sellFromInventory_success_inv h _ args payload hs
      subst hargs hpay
      have hq' : 0 ≤ (Atoi a1).1 := hq
      have hwf := unmarshalProduct_wellFormed stored Product.zero zero_wellFormed
      rw [unmarshal_marshal _ _ (soldProduct_wellFormed _ _ hwf)]
      obtain ⟨_, _, _, _, hqr⟩ := hwf
      have hfit : (unmarshalProduct stored Product.zero).1.Quantity - (Atoi a1).1 ≤ maxInt := by
        unfold InRange maxInt at *
        omega
      rw [soldProduct_of_fit _ _ (by omega) hfit]
      show 0 ≤ (unmarshalProduct stored Product.zero).1.Quantity - (Atoi a1).1
      omega
  · obtain ⟨r, tx, hw⟩ := Invoke_success_inv h _ fn args payload hfn hs
    rw [hw]
    exact put_state_same _ _ _

/-- Witness for C4 (amended): after one `addInventory`, a sale of 20 of the 50 units. -/
theorem quantity_nonneg_of_nonneg_argument_witness :
    0 ≤ (unmarshalProduct
          (marshalProduct ⟨1, 2, 100, "Shoe", "Acme", "Run", 9, "Red", 30⟩).1
          Product.zero).1.Quantity :=
  (quantity_nonneg_of_nonneg_argument
    [{ host := reliableHost "9m4e2mr0ui3e8a215n4g" "2018-05-01T12:00:00Z",
       fn := "addInventory",
       args := ["1", "2", "100", "Shoe", "Acme", "Run", "9", "Red", "50"] }]
    (reliableHost "9m4e2mr0ui3e8a215n5g" "2018-05-01T12:00:01Z") "sellFromInventory"
    ["100", "20"] (marshalProduct ⟨1, 2, 100, "Shoe", "Acme", "Run", 9, "Red", 30⟩).1
    (Or.inr rfl) (by decide)
    (by decide)).1

/-- C5: for every nine arguments, when both store writes succeed, `addInventory` returns
success with the serialized product whose integer fields are the `Atoi` values of
`args[0]`, `args[1]`, `args[2]`, `args[6]`, `args[8]` and whose text fields are
`args[3]`, `args[4]`, `args[5]`, `args[7]` unchanged; unmarshalling the payload gives
exactly that product back. -/
theorem addInventory_returns_parsed_product (h : Host) (w : World)
    (a0 a1 a2 a3 a4 a5 a6 a7 a8 : String)
    (hput1 : h.putFails (Itoa (Atoi a0).1)
      (marshalTransaction (addTransaction h a1 (productOfArgs a0 a1 a2 a3 a4 a5 a6 a7 a8))).1
        = false)
    (hput2 : h.putFails a2 (marshalProduct (productOfArgs a0 a1 a2 a3 a4 a5 a6 a7 a8)).1 = false) :
    (addInventory h w [a0, a1, a2, a3, a4, a5, a6, a7, a8]).1
        = Response.success
          (marshalProduct
            { RetailerId := (Atoi a0).1, SupplierId := (Atoi a1).1, ProductId := (Atoi a2).1,
              ProductName := a3, Brand := a4, Style := a5, Size := (Atoi a6).1, Color := a7,
              Quantity := (Atoi a8).1 }).1 ∧
      (unmarshalProduct
          (marshalProduct
            { RetailerId := (Atoi a0).1, SupplierId := (Atoi a1).1, ProductId := (Atoi a2).1,
              ProductName := a3, Brand := a4, Style := a5, Size := (Atoi a6).1, Color := a7,
              Quantity := (Atoi a8).1 }).1 Product.zero).1
        = { RetailerId := (Atoi a0).1, SupplierId := (Atoi a1).1, ProductId := (Atoi a2).1,
            ProductName := a3, Brand := a4, Style := a5, Size := (Atoi a6).1, Color := a7,
            Quantity := (Atoi a8).1 } := by
  constructor
  · rw [addInventory_success h w a0 a1 a2 a3 a4 a5 a6 a7 a8 hput1 hput2]
    rfl
  · exact unmarshal_stored _ (productOfArgs_wellFormed a0 a1 a2 a3 a4 a5 a6 a7 a8)

/-- Witness for C5: the call of the concrete scenario. -/
theorem addInventory_returns_parsed_product_witness :
    (addInventory (reliableHost "9m4e2mr0ui3e8a215n4g" "2018-05-01T12:00:00Z") World.empty
        ["1", "2", "100", "Shoe", "Acme", "Run", "9", "Red", "50"]).1
      = Response.success (marshalProduct ⟨1, 2, 100, "Shoe", "Acme", "Run", 9, "Red", 50⟩).1 :=
  (addInventory_returns_parsed_product
    (reliableHost "9m4e2mr0ui3e8a215n4g" "2018-05-01T12:00:00Z") World.empty
    "1" "2" "100" "Shoe" "Acme" "Run" "9" "Red" "50" rfl rfl).1

/-- C6 (counterexample): two successful `addInventory` calls of retailer 5 for the
product key "5".  Each call writes its transaction under "5" and then the product under
the same key, so `getTransactionHistory ["5"]` afterwards returns the product record,
which is not the transaction record the second call wrote. -/
theorem history_overwritten_counterexample :
    (Invoke (reliableHost "9m4e2mr0ui3e8a215n4g" "2018-05-01T12:00:00Z") World.empty
        "addInventory" ["5", "2", "5", "Shoe", "Acme", "Run", "9", "Red", "50"]).1
      = Response.success (marshalProduct ⟨5, 2, 5, "Shoe", "Acme", "Run", 9, "Red", 50⟩).1 ∧
    (Invoke (reliableHost "9m4e2mr0ui3e8a215n5g" "2018-05-01T12:00:01Z")
        (Invoke (reliableHost "9m4e2mr0ui3e8a215n4g" "2018-05-01T12:00:00Z") World.empty
          "addInventory" ["5", "2", "5", "Shoe", "Acme", "Run", "9", "Red", "50"]).2
        "addInventory" ["5", "2", "5", "Shoe", "Acme", "Run", "9", "Red", "60"]).1
      = Response.success (marshalProduct ⟨5, 2, 5, "Shoe", "Acme", "Run", 9, "Red", 60⟩).1 ∧
    newWrites
        (Invoke (reliableHost "9m4e2mr0ui3e8a215n4g" "2018-05-01T12:00:00Z") World.empty
          "addInventory" ["5", "2", "5", "Shoe", "Acme", "Run", "9", "Red", "50"]).2
        (Invoke (reliableHost "9m4e2mr0ui3e8a215n5g" "2018-05-01T12:00:01Z")
          (Invoke (reliableHost "9m4e2mr0ui3e8a215n4g" "2018-05-01T12:00:00Z") World.empty
            "addInventory" ["5", "2", "5", "Shoe", "Acme", "Run", "9", "Red", "50"]).2
          "addInventory" ["5", "2", "5", "Shoe", "Acme", "Run", "9", "Red", "60"]).2
      = [("5", (marshalTransaction ⟨"9m4e2mr0ui3e8a215n5g", "2018-05-01T12:00:01Z", "add", "2",
                ⟨5, 2, 5, "Shoe", "Acme", "Run", 9, "Red", 60⟩⟩).1),
         ("5", (marshalProduct ⟨5, 2, 5, "Shoe", "Acme", "Run", 9, "Red", 60⟩).1)] ∧
    (getTransactionHistory (reliableHost "9m4e2mr0ui3e8a215n6g" "2018-05-01T12:00:02Z")
        (Invoke (reliableHost "9m4e2mr0ui3e8a215n5g" "2018-05-01T12:00:01Z")
          (Invoke (reliableHost "9m4e2mr0ui3e8a215n4g" "2018-05-01T12:00:00Z") World.empty
            "addInventory" ["5", "2", "5", "Shoe", "Acme", "Run", "9", "Red", "50"]).2
          "addInventory" ["5", "2", "5", "Shoe", "Acme", "Run", "9", "Red", "60"]).2 ["5"]).1
      = Response.success (marshalProduct ⟨5, 2, 5, "Shoe", "Acme", "Run", 9, "Red", 60⟩).1 ∧
    (marshalProduct ⟨5, 2, 5, "Shoe", "Acme", "Run", 9, "Red", 60⟩).1
      ≠ (marshalTransaction ⟨"9m4e2mr0ui3e8a215n5g", "2018-05-01T12:00:01Z", "add", "2",
          ⟨5, 2, 5, "Shoe", "Acme", "Run", 9, "Red", 60⟩⟩).1 := by
  decide

/-- C6 (amended): let two successive successful mutating calls both have written their
transaction record under the retailer key `r` (`tx1` by the first, `tx2` by the second).
If the product key of the second call is not `r` itself and the read of `r` succeeds,
then `getTransactionHistory [r]` returns exactly `tx2`, and changes nothing. -/
theorem history_returns_second_transaction (h1 h2 hr : Host) (w : World) (fn1 fn2 : String)
    (args1 args2 : List String) (p1 p2 r tx1 tx2 k1 k2 : String)
    (_hfn1 : Mutating fn1) (hfn2 : Mutating fn2)
    (_hs1 : (Invoke h1 w fn1 args1).1 = Response.success p1)
    (_hw1 : newWrites w (Invoke h1 w fn1 args1).2 = [(r, tx1), (k1, p1)])
    (hs2 : (Invoke h2 (Invoke h1 w fn1 args1).2 fn2 args2).1 = Response.success p2)
    (hw2 : newWrites (Invoke h1 w fn1 args1).2 (Invoke h2 (Invoke h1 w fn1 args1).2 fn2 args2).2
      = [(r, tx2), (k2, p2)])
    (hk : k2 ≠ r) (hread : hr.getFails r = false) :
    getTransactionHistory hr (Invoke h2 (Invoke h1 w fn1 args1).2 fn2 args2).2 [r]
      = (Response.success tx2, (Invoke h2 (Invoke h1 w fn1 args1).2 fn2 args2).2) := by
  obtain ⟨r', tx', hw⟩ := Invoke_success_inv h2 _ fn2 args2 p2 hfn2 hs2
  rw [hw] at hw2 ⊢
  rw [newWrites_put_put] at hw2
  simp only [List.cons.injEq, Prod.mk.injEq, and_true] at hw2
  obtain ⟨⟨hr', htx'⟩, hk2⟩ := hw2
  subst hr' htx' hk2
  have hst : (((Invoke h1 w fn1 args1).2.put r' tx').put (productKey fn2 args2) p2).state r'
      = some tx' := by
    rw [put_state_other _ _ _ _ (Ne.symm hk), put_state_same]
  simp only [getTransactionHistory, GetState_ok _ _ _ hread, hst]
  simp

/-- Witness for C6 (amended): an `addInventory` and a sale by retailer 1 on product
"100"; the history of "1" is the sale's transaction. -/
theorem history_returns_second_transaction_witness :
    getTransactionHistory (reliableHost "9m4e2mr0ui3e8a215n6g" "2018-05-01T12:00:02Z")
        (Invoke (reliableHost "9m4e2mr0ui3e8a215n5g" "2018-05-01T12:00:01Z")
          (Invoke (reliableHost "9m4e2mr0ui3e8a215n4g" "2018-05-01T12:00:00Z") World.empty
            "addInventory" ["1", "2", "100", "Shoe", "Acme", "Run", "9", "Red", "50"]).2
          "sellFromInventory" ["100", "20"]).2 ["1"]
      = (Response.success
          (marshalTransaction ⟨"9m4e2mr0ui3e8a215n5g", "2018-05-01T12:00:01Z", "sell", "1",
            ⟨1, 2, 100, "Shoe", "Acme", "Run", 9, "Red", 30⟩⟩).1,
         (Invoke (reliableHost "9m4e2mr0ui3e8a215n5g" "2018-05-01T12:00:01Z")
          (Invoke (reliableHost "9m4e2mr0ui3e8a215n4g" "2018-05-01T12:00:00Z") World.empty
            "addInventory" ["1", "2", "100", "Shoe", "Acme", "Run", "9", "Red", "50"]).2
          "sellFromInventory" ["100", "20"]).2) :=
  history_returns_second_transaction
    (reliableHost "9m4e2mr0ui3e8a215n4g" "2018-05-01T12:00:00Z")
    (reliableHost "9m4e2mr0ui3e8a215n5g" "2018-05-01T12:00:01Z")
    (reliableHost "9m4e2mr0ui3e8a215n6g" "2018-05-01T12:00:02Z") World.empty
    "addInventory" "sellFromInventory"
    ["1", "2", "100", "Shoe", "Acme", "Run", "9", "Red", "50"] ["100", "20"]
    (marshalProduct ⟨1, 2, 100, "Shoe", "Acme", "Run", 9, "Red", 50⟩).1
    (marshalProduct ⟨1, 2, 100, "Shoe", "Acme", "Run", 9, "Red", 30⟩).1
    "1"
    (marshalTransaction ⟨"9m4e2mr0ui3e8a215n4g", "2018-05-01T12:00:00Z", "add", "2",
      ⟨1, 2, 100, "Shoe", "Acme", "Run", 9, "Red", 50⟩⟩).1
    (marshalTransaction ⟨"9m4e2mr0ui3e8a215n5g", "2018-05-01T12:00:01Z", "sell", "1",
      ⟨1, 2, 100, "Shoe", "Acme", "Run", 9, "Red", 30⟩⟩).1
    "100" "100" (Or.inl rfl) (Or.inr rfl) (by decide) (by decide) (by decide) (by decide)
    (by decide) rfl

/-- C7: after a successful `addInventory` (product key `args[2]`) or `sellFromInventory`
(product key `args[0]`), the last write of the call is the response payload under the
product key, and `viewInventory` on that key (its read not failing) succeeds, returns
exactly those bytes and changes nothing; a repeated `viewInventory` returns the same. -/
theorem view_returns_last_written (h hv hv2 : Host) (w : World) (fn : String)
    (args : List String) (payload : String) (hfn : Mutating fn)
    (hs : (Invoke h w fn args).1 = Response.success payload)
    (hread : hv.getFails (productKey fn args) = false)
    (hread2 : hv2.getFails (productKey fn args) = false) :
    (Invoke h w fn args).2.writes.getLast? = some (productKey fn args, payload) ∧
      viewInventory hv (Invoke h w fn args).2 [productKey fn args]
        = (Response.success payload, (Invoke h w fn args).2) ∧
      viewInventory hv2 (viewInventory hv (Invoke h w fn args).2 [productKey fn args]).2
          [productKey fn args]
        = (Response.success payload, (Invoke h w fn args).2) := by
  obtain ⟨r, tx, hw⟩ := Invoke_success_inv h w fn args payload hfn hs
  rw [hw]
  have hst := put_state_same (w.put r tx) (productKey fn args) payload
  refine ⟨put_writes_getLast _ _ _, viewInventory_present _ _ _ _ hread hst, ?_⟩
  rw [viewInventory_present _ _ _ _ hread hst]
  exact viewInventory_present _ _ _ _ hread2 hst

/-- Witness for C7: `viewInventory ["100"]` after the `addInventory` of the scenario. -/
theorem view_returns_last_written_witness :
    viewInventory (reliableHost "9m4e2mr0ui3e8a215n5g" "2018-05-01T12:00:01Z")
        (Invoke (reliableHost "9m4e2mr0ui3e8a215n4g" "2018-05-01T12:00:00Z") World.empty
          "addInventory" ["1", "2", "100", "Shoe", "Acme", "Run", "9", "Red", "50"]).2 ["100"]
      = (Response.success (marshalProduct ⟨1, 2, 100, "Shoe", "Acme", "Run", 9, "Red", 50⟩).1,
         (Invoke (reliableHost "9m4e2mr0ui3e8a215n4g" "2018-05-01T12:00:00Z") World.empty
          "addInventory" ["1", "2", "100", "Shoe", "Acme", "Run", "9", "Red", "50"]).2) :=
  (view_returns_last_written
    (reliableHost "9m4e2mr0ui3e8a215n4g" "2018-05-01T12:00:00Z")
    (reliableHost "9m4e2mr0ui3e8a215n5g" "2018-05-01T12:00:01Z")
    (reliableHost "9m4e2mr0ui3e8a215n6g" "2018-05-01T12:00:02Z") World.empty
    "addInventory" ["1", "2", "100", "Shoe", "Acme", "Run", "9", "Red", "50"]
    (marshalProduct ⟨1, 2, 100, "Shoe", "Acme", "Run", 9, "Red", 50⟩).1
    (Or.inl rfl) (by decide) rfl rfl).2.1

/-- C8 (counterexample): `addInventory` with quantity "0" succeeds; the following
`sellFromInventory ["100", "-9223372036854775808"]` has `n ≤ q` and succeeds, but the
product it returns has quantity -9223372036854775808, not `q - n = 9223372036854775808`. -/
theorem add_then_sell_wraps_counterexample :
    (addInventory (reliableHost "9m4e2mr0ui3e8a215n4g" "2018-05-01T12:00:00Z") World.empty
        ["1", "2", "100", "Shoe", "Acme", "Run", "9", "Red", "0"]).1
      = Response.success (marshalProduct ⟨1, 2, 100, "Shoe", "Acme", "Run", 9, "Red", 0⟩).1 ∧
    (Atoi "-9223372036854775808").1 ≤ (Atoi "0").1 ∧
    (sellFromInventory (reliableHost "9m4e2mr0ui3e8a215n5g" "2018-05-01T12:00:01Z")
        (addInventory (reliableHost "9m4e2mr0ui3e8a215n4g" "2018-05-01T12:00:00Z") World.empty
          ["1", "2", "100", "Shoe", "Acme", "Run", "9", "Red", "0"]).2
        ["100", "-9223372036854775808"]).1
      = Response.success
          (marshalProduct
            ⟨1, 2, 100, "Shoe", "Acme", "Run", 9, "Red", -9223372036854775808⟩).1 ∧
    (-9223372036854775808 : Int) ≠ (Atoi "0").1 - (Atoi "-9223372036854775808").1 := by
  decide

/-- C8 (amended): after a successful `addInventory(args)` with parsed quantity `q`, for
every `n` with `n ≤ q` whose difference `q - n` fits Go's `int` (always so when
`n ≥ 0`), a following `sellFromInventory [args[2], n]` (its store calls succeeding)
succeeds and returns the product `addInventory` returned with only the quantity changed,
to `q - n`; a further `sellFromInventory [args[2], m]` with `m > q - n` returns
"Inventory not sufficient", changes nothing, and the stored record still has quantity
`q - n`. -/
theorem add_then_sell (h1 h2 h3 : Host) (w : World) (a0 a1 a2 a3 a4 a5 a6 a7 a8 n m : String)
    (payload : String)
    (hs : (addInventory h1 w [a0, a1, a2, a3, a4, a5, a6, a7, a8]).1 = Response.success payload)
    (hle : (Atoi n).1 ≤ (Atoi a8).1) (hfit : (Atoi a8).1 - (Atoi n).1 ≤ maxInt)
    (hread2 : h2.getFails a2 = false) (hput2 : ∀ k v, h2.putFails k v = false)
    (hgt : (Atoi a8).1 - (Atoi n).1 < (Atoi m).1) (hread3 : h3.getFails a2 = false) :
    payload = (marshalProduct (productOfArgs a0 a1 a2 a3 a4 a5 a6 a7 a8)).1 ∧
      (sellFromInventory h2 (addInventory h1 w [a0, a1, a2, a3, a4, a5, a6, a7, a8]).2 [a2, n]).1
        = Response.success
            (marshalProduct { productOfArgs a0 a1 a2 a3 a4 a5 a6 a7 a8 with
              Quantity := (Atoi a8).1 - (Atoi n).1 }).1 ∧
      sellFromInventory h3
          (sellFromInventory h2 (addInventory h1 w [a0, a1, a2, a3, a4, a5, a6, a7, a8]).2
            [a2, n]).2 [a2, m]
        = (Response.error "Inventory not sufficient",
            (sellFromInventory h2 (addInventory h1 w [a0, a1, a2, a3, a4, a5, a6, a7, a8]).2
              [a2, n]).2) ∧
      (sellFromInventory h2 (addInventory h1 w [a0, a1, a2, a3, a4, a5, a6, a7, a8]).2
          [a2, n]).2.state a2
        = some (marshalProduct { productOfArgs a0 a1 a2 a3 a4 a5 a6 a7 a8 with
            Quantity := (Atoi a8).1 - (Atoi n).1 }).1 := by
  obtain ⟨b0, b1, b2, b3, b4, b5, b6, b7, b8, hargs, hpay, hw⟩ :=
    addInventory_success_inv h1 w _ payload hs
  simp only [List.cons.injEq, and_true] at hargs
  obtain ⟨e0, e1, e2, e3, e4, e5, e6, e7, e8⟩ := hargs
  subst e0 e1 e2 e3 e4 e5 e6 e7 e8
  have hwf := productOfArgs_wellFormed a0 a1 a2 a3 a4 a5 a6 a7 a8
  have hq : (productOfArgs a0 a1 a2 a3 a4 a5 a6 a7 a8).Quantity = (Atoi a8).1 := rfl
  have hsell := sellFromInventory_success h2
    (addInventory h1 w [a0, a1, a2, a3, a4, a5, a6, a7, a8]).2 a2 n
    (productOfArgs a0 a1 a2 a3 a4 a5 a6 a7 a8) hwf hread2
    (by rw [hw, hpay]; exact put_state_same _ _ _) (by rw [hq]; exact hle) hput2
  rw [soldProduct_of_fit _ _ (by rw [hq]; exact hle) (by rw [hq]; exact hfit), hq] at hsell
  have hwf2 : ({ productOfArgs a0 a1 a2 a3 a4 a5 a6 a7 a8 with
      Quantity := (Atoi a8).1 - (Atoi n).1 } : Product).WellFormed := by
    obtain ⟨w1, w2, w3, w4, _⟩ := hwf
    refine ⟨w1, w2, w3, w4, ?_⟩
    have hn := Atoi_inRange n
    have h8 := Atoi_inRange a8
    show InRange ((Atoi a8).1 - (Atoi n).1)
    unfold InRange minInt maxInt at *
    constructor <;> omega
  refine ⟨hpay, ?_, ?_, ?_⟩
  · rw [hsell]
  · rw [hsell]
    exact sellFromInventory_rejected h3 _ a2 m _ hwf2 hread3 (put_state_same _ _ _) hgt
  · rw [hsell]
    exact put_state_same _ _ _

/-- Witness for C8 (amended), the scenario of the specification: 50 units are added,
the sale of 20 leaves 30, and the sale of 100 is rejected with 30 remaining. -/
theorem add_then_sell_witness :
    (sellFromInventory (reliableHost "9m4e2mr0ui3e8a215n5g" "2018-05-01T12:00:01Z")
        (addInventory (reliableHost "9m4e2mr0ui3e8a215n4g" "2018-05-01T12:00:00Z") World.empty
          ["1", "2", "100", "Shoe", "Acme", "Run", "9", "Red", "50"]).2 ["100", "20"]).1
      = Response.success (marshalProduct ⟨1, 2, 100, "Shoe", "Acme", "Run", 9, "Red", 30⟩).1 ∧
    sellFromInventory (reliableHost "9m4e2mr0ui3e8a215n6g" "2018-05-01T12:00:02Z")
        (sellFromInventory (reliableHost "9m4e2mr0ui3e8a215n5g" "2018-05-01T12:00:01Z")
          (addInventory (reliableHost "9m4e2mr0ui3e8a215n4g" "2018-05-01T12:00:00Z") World.empty
            ["1", "2", "100", "Shoe", "Acme", "Run", "9", "Red", "50"]).2 ["100", "20"]).2
        ["100", "100"]
      = (Response.error "Inventory not sufficient",
          (sellFromInventory (reliableHost "9m4e2mr0ui3e8a215n5g" "2018-05-01T12:00:01Z")
            (addInventory (reliableHost "9m4e2mr0ui3e8a215n4g" "2018-05-01T12:00:00Z")
              World.empty ["1", "2", "100", "Shoe", "Acme", "Run", "9", "Red", "50"]).2
            ["100", "20"]).2) ∧
    (sellFromInventory (reliableHost "9m4e2mr0ui3e8a215n5g" "2018-05-01T12:00:01Z")
        (addInventory (reliableHost "9m4e2mr0ui3e8a215n4g" "2018-05-01T12:00:00Z") World.empty
          ["1", "2", "100", "Shoe", "Acme", "Run", "9", "Red", "50"]).2
        ["100", "20"]).2.state "100"
      = some (marshalProduct ⟨1, 2, 100, "Shoe", "Acme", "Run", 9, "Red", 30⟩).1 :=
  (add_then_sell
    (reliableHost "9m4e2mr0ui3e8a215n4g" "2018-05-01T12:00:00Z")
    (reliableHost "9m4e2mr0ui3e8a215n5g" "2018-05-01T12:00:01Z")
    (reliableHost "9m4e2mr0ui3e8a215n6g" "2018-05-01T12:00:02Z") World.empty
    "1" "2" "100" "Shoe" "Acme" "Run" "9" "Red" "50" "20" "100"
    (marshalProduct ⟨1, 2, 100, "Shoe", "Acme", "Run", 9, "Red", 50⟩).1
    (by decide) (by decide) (by decide) rfl (fun _ _ => rfl) (by decide) rfl).2

/-- C9: for every nine arguments (both store writes succeeding), `addInventory` writes
first, under the decimal rendering of the parsed `args[0]`, bytes that decode, without
error, to the transaction of type "add" with owner `args[1]` and the product built from
the arguments as snapshot, and then the product under `args[2]`; what is stored under
`args[2]` afterwards is that product record whatever the world held before. -/
theorem addInventory_writes (h : Host) (w w' : World) (a0 a1 a2 a3 a4 a5 a6 a7 a8 : String)
    (hput1 : h.putFails (Itoa (Atoi a0).1)
      (marshalTransaction (addTransaction h a1 (productOfArgs a0 a1 a2 a3 a4 a5 a6 a7 a8))).1
        = false)
    (hput2 : h.putFails a2 (marshalProduct (productOfArgs a0 a1 a2 a3 a4 a5 a6 a7 a8)).1 = false) :
    (∃ tx : String,
        (addInventory h w [a0, a1, a2, a3, a4, a5, a6, a7, a8]).2.writes
          = w.writes ++
            [(Itoa (Atoi a0).1, tx),
             (a2, (marshalProduct (productOfArgs a0 a1 a2 a3 a4 a5 a6 a7 a8)).1)] ∧
        tx = (marshalTransaction
               { TransactionId := h.xidNew, TransactionTimestamp := h.timeNow,
                 TransactionType := "add", TransactionOwner := a1,
                 ProductInfo := productOfArgs a0 a1 a2 a3 a4 a5 a6 a7 a8 }).1 ∧
        unmarshalTransaction tx Transaction.zero
          = ({ TransactionId := h.xidNew, TransactionTimestamp := h.timeNow,
               TransactionType := "add", TransactionOwner := a1,
               ProductInfo := productOfArgs a0 a1 a2 a3 a4 a5 a6 a7 a8 }, false)) ∧
      (addInventory h w [a0, a1, a2, a3, a4, a5, a6, a7, a8]).2.state a2
        = some (marshalProduct (productOfArgs a0 a1 a2 a3 a4 a5 a6 a7 a8)).1 ∧
      unmarshalProduct (marshalProduct (productOfArgs a0 a1 a2 a3 a4 a5 a6 a7 a8)).1
          Product.zero = (productOfArgs a0 a1 a2 a3 a4 a5 a6 a7 a8, false) ∧
      (addInventory h w' [a0, a1, a2, a3, a4, a5, a6, a7, a8]).2.state a2
        = (addInventory h w [a0, a1, a2, a3, a4, a5, a6, a7, a8]).2.state a2 := by
  rw [addInventory_success h w a0 a1 a2 a3 a4 a5 a6 a7 a8 hput1 hput2,
    addInventory_success h w' a0 a1 a2 a3 a4 a5 a6 a7 a8 hput1 hput2]
  refine ⟨⟨_, ?_, rfl, ?_⟩, put_state_same _ _ _,
    unmarshal_marshal _ _ (productOfArgs_wellFormed a0 a1 a2 a3 a4 a5 a6 a7 a8), ?_⟩
  · simp [World.put, addTransaction]
  · exact unmarshalTransaction_marshal _ _ (productOfArgs_wellFormed a0 a1 a2 a3 a4 a5 a6 a7 a8)
  · rw [put_state_same, put_state_same]

/-- Witness for C9: the `addInventory` of the scenario overwrites what key "100" held,
after writing under "1" bytes that decode to the transaction of type "add" with owner
"2". -/
theorem addInventory_writes_witness :
    (∃ tx : String,
      (addInventory (reliableHost "9m4e2mr0ui3e8a215n4g" "2018-05-01T12:00:00Z")
          (World.empty.put "100" "old")
          ["1", "2", "100", "Shoe", "Acme", "Run", "9", "Red", "50"]).2.writes
        = [("100", "old"), ("1", tx),
           ("100", (marshalProduct ⟨1, 2, 100, "Shoe", "Acme", "Run", 9, "Red", 50⟩).1)] ∧
      unmarshalTransaction tx Transaction.zero
        = (⟨"9m4e2mr0ui3e8a215n4g", "2018-05-01T12:00:00Z", "add", "2",
            ⟨1, 2, 100, "Shoe", "Acme", "Run", 9, "Red", 50⟩⟩, false)) ∧
    (addInventory (reliableHost "9m4e2mr0ui3e8a215n4g" "2018-05-01T12:00:00Z")
        (World.empty.put "100" "old")
        ["1", "2", "100", "Shoe", "Acme", "Run", "9", "Red", "50"]).2.state "100"
      = some (marshalProduct ⟨1, 2, 100, "Shoe", "Acme", "Run", 9, "Red", 50⟩).1 :=
  have key := addInventory_writes (reliableHost "9m4e2mr0ui3e8a215n4g" "2018-05-01T12:00:00Z")
    (World.empty.put "100" "old") World.empty
    "1" "2" "100" "Shoe" "Acme" "Run" "9" "Red" "50" rfl rfl
  ⟨key.1.elim fun tx htx => ⟨tx, htx.1, htx.2.1.symm ▸ (by decide)⟩, key.2.1⟩

/-- C10: for every successful `sellFromInventory [a0, a1]` on a stored product `p`, the
call writes first, under the decimal rendering of `p.RetailerId`, bytes that decode,
without error, to the transaction of type "sell" whose owner is that rendering and whose
snapshot is `p` with the decremented quantity, and then, under `a0`, that updated
product, which is also the payload. -/
theorem sellFromInventory_writes (h : Host) (w : World) (a0 a1 : String) (p : Product)
    (payload : String) (hp : p.WellFormed)
    (hstored : w.state a0 = some (marshalProduct p).1)
    (hs : (sellFromInventory h w [a0, a1]).1 = Response.success payload) :
    payload = (marshalProduct (soldProduct p (Atoi a1).1)).1 ∧
      (∃ tx : String,
        (sellFromInventory h w [a0, a1]).2.writes
          = w.writes ++
            [(Itoa p.RetailerId, tx),
             (a0, (marshalProduct (soldProduct p (Atoi a1).1)).1)] ∧
        tx = (marshalTransaction
               { TransactionId := h.xidNew, TransactionTimestamp := h.timeNow,
                 TransactionType := "sell", TransactionOwner := Itoa p.RetailerId,
                 ProductInfo := soldProduct p (Atoi a1).1 }).1 ∧
        unmarshalTransaction tx Transaction.zero
          = ({ TransactionId := h.xidNew, TransactionTimestamp := h.timeNow,
               TransactionType := "sell", TransactionOwner := Itoa p.RetailerId,
               ProductInfo := soldProduct p (Atoi a1).1 }, false)) ∧
      (sellFromInventory h w [a0, a1]).2.state a0
        = some (marshalProduct (soldProduct p (Atoi a1).1)).1 ∧
      unmarshalProduct (marshalProduct (soldProduct p (Atoi a1).1)).1 Product.zero
        = ({ p with Quantity := wrapInt (p.Quantity - (Atoi a1).1) }, false) := by
  obtain ⟨b0, b1, stored, hargs, hget, _, hpay, hw⟩ :=
    sellFromInventory_success_inv h w _ payload hs
  simp only [List.cons.injEq, and_true] at hargs
  obtain ⟨e0, e1⟩ := hargs
  subst e0 e1
  have hst : stored = (marshalProduct p).1 := by
    unfold GetState at hget
    split_ifs at hget
    rw [hstored] at hget
    exact (Option.some.inj hget).symm
  subst hst
  rw [unmarshal_stored p hp] at hpay hw
  subst hpay
  rw [hw]
  refine ⟨rfl, ⟨_, ?_, rfl, ?_⟩, put_state_same _ _ _,
    unmarshal_marshal _ _ (soldProduct_wellFormed p _ hp)⟩
  · simp [World.put, sellTransaction, soldProduct]
  · exact unmarshalTransaction_marshal _ _ (soldProduct_wellFormed p _ hp)

/-- Witness for C10: the sale of 20 of the 50 units of the scenario. -/
theorem sellFromInventory_writes_witness :
    ∃ tx : String,
      (sellFromInventory (reliableHost "9m4e2mr0ui3e8a215n5g" "2018-05-01T12:00:01Z")
          (World.empty.put "100"
            (marshalProduct ⟨1, 2, 100, "Shoe", "Acme", "Run", 9, "Red", 50⟩).1)
          ["100", "20"]).2.writes
        = [("100", (marshalProduct ⟨1, 2, 100, "Shoe", "Acme", "Run", 9, "Red", 50⟩).1),
           ("1", tx),
           ("100", (marshalProduct ⟨1, 2, 100, "Shoe", "Acme", "Run", 9, "Red", 30⟩).1)] ∧
      unmarshalTransaction tx Transaction.zero
        = (⟨"9m4e2mr0ui3e8a215n5g", "2018-05-01T12:00:01Z", "sell", "1",
            ⟨1, 2, 100, "Shoe", "Acme", "Run", 9, "Red", 30⟩⟩, false) :=
  (sellFromInventory_writes (reliableHost "9m4e2mr0ui3e8a215n5g" "2018-05-01T12:00:01Z")
    (World.empty.put "100" (marshalProduct ⟨1, 2, 100, "Shoe", "Acme", "Run", 9, "Red", 50⟩).1)
    "100" "20" ⟨1, 2, 100, "Shoe", "Acme", "Run", 9, "Red", 50⟩
    (marshalProduct ⟨1, 2, 100, "Shoe", "Acme", "Run", 9, "Red", 30⟩).1
    (by decide) (put_state_same _ _ _) (by decide)).2.1.elim
    fun tx htx => ⟨tx, htx.1, htx.2.1.symm ▸ (by decide)⟩

/-- C11 (counterexample): `addInventory` of retailer 5 for the product key "5", over a
store that accepts the transaction write and refuses the product write.  The call
returns an error and the transaction stays stored, but the key "5" is also the product
key, so the value under the product key is no longer what it was before the call
(nothing). -/
theorem orphan_overwrites_product_key_counterexample :
    addInventory
        { xidNew := "9m4e2mr0ui3e8a215n4g", timeNow := "2018-05-01T12:00:00Z",
          getFails := fun _ => false,
          putFails := fun _ v =>
            v = (marshalProduct ⟨5, 2, 5, "Shoe", "Acme", "Run", 9, "Red", 50⟩).1 }
        World.empty ["5", "2", "5", "Shoe", "Acme", "Run", "9", "Red", "50"]
      = (Response.error "Failed to set asset: 5",
          World.empty.put "5"
            (marshalTransaction ⟨"9m4e2mr0ui3e8a215n4g", "2018-05-01T12:00:00Z", "add", "2",
              ⟨5, 2, 5, "Shoe", "Acme", "Run", 9, "Red", 50⟩⟩).1) ∧
    World.empty.state "5" = none ∧
    (World.empty.put "5"
        (marshalTransaction ⟨"9m4e2mr0ui3e8a215n4g", "2018-05-01T12:00:00Z", "add", "2",
          ⟨5, 2, 5, "Shoe", "Acme", "Run", 9, "Red", 50⟩⟩).1).state "5"
      = some (marshalTransaction ⟨"9m4e2mr0ui3e8a215n4g", "2018-05-01T12:00:00Z", "add", "2",
          ⟨5, 2, 5, "Shoe", "Acme", "Run", 9, "Red", 50⟩⟩).1 := by
  refine ⟨?_, rfl, put_state_same _ _ _⟩
  rw [addInventory_eq, if_neg (by decide), if_pos (by decide)]
  rfl

/-- C11 (amended): over a store whose writes may fail, for `addInventory` and likewise
for `sellFromInventory` (past its stock check): if the transaction write fails, the call
returns an error and nothing is written at all; if the transaction write succeeds and the
product write fails, the call returns an error, the transaction stays stored under the
retailer key, and the value under the product key is what it was before the call
provided the product key is not the retailer key itself. -/
theorem partial_write_leaves_transaction (h : Host) (w : World)
    (a0 a1 a2 a3 a4 a5 a6 a7 a8 id n stored : String) :
    (h.putFails (Itoa (Atoi a0).1)
        (marshalTransaction (addTransaction h a1 (productOfArgs a0 a1 a2 a3 a4 a5 a6 a7 a8))).1
          = true →
      addInventory h w [a0, a1, a2, a3, a4, a5, a6, a7, a8]
        = (Response.error "Failed to set transaction ", w)) ∧
    (h.putFails (Itoa (Atoi a0).1)
        (marshalTransaction (addTransaction h a1 (productOfArgs a0 a1 a2 a3 a4 a5 a6 a7 a8))).1
          = false →
      h.putFails a2 (marshalProduct (productOfArgs a0 a1 a2 a3 a4 a5 a6 a7 a8)).1 = true →
      addInventory h w [a0, a1, a2, a3, a4, a5, a6, a7, a8]
          = (Response.error ("Failed to set asset: " ++ a2),
              w.put (Itoa (Atoi a0).1)
                (marshalTransaction
                  (addTransaction h a1 (productOfArgs a0 a1 a2 a3 a4 a5 a6 a7 a8))).1) ∧
        (addInventory h w [a0, a1, a2, a3, a4, a5, a6, a7, a8]).2.state (Itoa (Atoi a0).1)
          = some (marshalTransaction
              (addTransaction h a1 (productOfArgs a0 a1 a2 a3 a4 a5 a6 a7 a8))).1 ∧
        (a2 ≠ Itoa (Atoi a0).1 →
          (addInventory h w [a0, a1, a2, a3, a4, a5, a6, a7, a8]).2.state a2 = w.state a2)) ∧
    ((GetState h w id).1 = some stored →
      ¬ (unmarshalProduct stored Product.zero).1.Quantity < (Atoi n).1 →
      (h.putFails (Itoa (unmarshalProduct stored Product.zero).1.RetailerId)
          (marshalTransaction (sellTransaction h
            (soldProduct (unmarshalProduct stored Product.zero).1 (Atoi n).1))).1 = true →
        sellFromInventory h w [id, n] = (Response.error "Failed to set transaction ", w)) ∧
      (h.putFails (Itoa (unmarshalProduct stored Product.zero).1.RetailerId)
          (marshalTransaction (sellTransaction h
            (soldProduct (unmarshalProduct stored Product.zero).1 (Atoi n).1))).1 = false →
        h.putFails id
          (marshalProduct (soldProduct (unmarshalProduct stored Product.zero).1 (Atoi n).1)).1
            = true →
        sellFromInventory h w [id, n]
            = (Response.error "Something went wrong in chaincode",
                w.put (Itoa (unmarshalProduct stored Product.zero).1.RetailerId)
                  (marshalTransaction (sellTransaction h
                    (soldProduct (unmarshalProduct stored Product.zero).1 (Atoi n).1))).1) ∧
          (sellFromInventory h w [id, n]).2.state
              (Itoa (unmarshalProduct stored Product.zero).1.RetailerId)
            = some (marshalTransaction (sellTransaction h
                (soldProduct (unmarshalProduct stored Product.zero).1 (Atoi n).1))).1 ∧
          (id ≠ Itoa (unmarshalProduct stored Product.zero).1.RetailerId →
            (sellFromInventory h w [id, n]).2.state id = w.state id))) := by
  refine ⟨?_, ?_, ?_⟩
  · intro h1
    rw [addInventory_eq, if_pos h1]
  · intro h1 h2
    rw [addInventory_eq, if_neg (by simp [h1]), if_pos h2]
    exact ⟨rfl, put_state_same _ _ _, fun hk => put_state_other _ _ _ _ hk⟩
  · intro hget hq
    rw [sellFromInventory_eq h w id n stored _ hget rfl, if_neg hq]
    constructor
    · intro h1
      rw [if_pos h1]
    · intro h1 h2
      rw [if_neg (by simp [h1]), if_pos h2]
      exact ⟨rfl, put_state_same _ _ _, fun hk => put_state_other _ _ _ _ hk⟩

/-- Witness for C11 (amended): retailer 1 adds product "100" over a store that refuses
the product write; the transaction is left under "1" and key "100" still holds nothing. -/
theorem partial_write_leaves_transaction_witness :
    addInventory
        { xidNew := "9m4e2mr0ui3e8a215n4g", timeNow := "2018-05-01T12:00:00Z",
          getFails := fun _ => false, putFails := fun k _ => k = "100" }
        World.empty ["1", "2", "100", "Shoe", "Acme", "Run", "9", "Red", "50"]
      = (Response.error "Failed to set asset: 100",
          World.empty.put "1"
            (marshalTransaction ⟨"9m4e2mr0ui3e8a215n4g", "2018-05-01T12:00:00Z", "add", "2",
              ⟨1, 2, 100, "Shoe", "Acme", "Run", 9, "Red", 50⟩⟩).1) :=
  ((partial_write_leaves_transaction
    { xidNew := "9m4e2mr0ui3e8a215n4g", timeNow := "2018-05-01T12:00:00Z",
      getFails := fun _ => false, putFails := fun k _ => k = "100" }
    World.empty "1" "2" "100" "Shoe" "Acme" "Run" "9" "Red" "50" "100" "20" "").2.1
      (by decide) (by decide)).1

/-- C12: `addInventory` with a number of arguments other than 9, `sellFromInventory`
with other than 2, and `viewInventory` / `getTransactionHistory` with other than 1 return
their "Incorrect arguments" error whatever the host and the world are, and return the
world unchanged; and with store writes that do not fail `addInventory` with exactly 9
arguments returns success. -/
theorem arity_validation (h : Host) (w : World) (args : List String) :
    (args.length ≠ 9 →
      addInventory h w args = (Response.error "Incorrect arguments. Expecting 9", w)) ∧
    (args.length ≠ 2 →
      sellFromInventory h w args = (Response.error "Incorrect arguments. Expecting 2", w)) ∧
    (args.length ≠ 1 →
      viewInventory h w args = (Response.error "Incorrect arguments. Expecting a key", w) ∧
      getTransactionHistory h w args
        = (Response.error "Incorrect arguments. Expecting a key", w)) ∧
    (args.length = 9 → (∀ k v, h.putFails k v = false) →
      ∃ payload, (addInventory h w args).1 = Response.success payload) := by
  refine ⟨?_, ?_, ?_, ?_⟩
  · intro hl
    unfold addInventory
    split
    · simp at hl
    · rfl
  · intro hl
    unfold sellFromInventory
    split
    · simp at hl
    · rfl
  · intro hl
    constructor
    · unfold viewInventory
      split
      · simp at hl
      · rfl
    · unfold getTransactionHistory
      split
      · simp at hl
      · rfl
  · intro hl hput
    match args, hl with
    | [a0, a1, a2, a3, a4, a5, a6, a7, a8], _ =>
      exact ⟨_, by rw [addInventory_success h w a0 a1 a2 a3 a4 a5 a6 a7 a8 (hput _ _) (hput _ _)]⟩

/-- Witness for C12: `addInventory` with two arguments. -/
theorem arity_validation_witness :
    addInventory (reliableHost "9m4e2mr0ui3e8a215n4g" "2018-05-01T12:00:00Z") World.empty
        ["100", "20"]
      = (Response.error "Incorrect arguments. Expecting 9", World.empty) :=
  (arity_validation (reliableHost "9m4e2mr0ui3e8a215n4g" "2018-05-01T12:00:00Z") World.empty
    ["100", "20"]).1 (by decide)

/-- C13 (counterexample): for the verbs "deleteInventory" and "audit", which are none of
the four operations, `Invoke` returns one and the same message, which contains neither
verb. -/
theorem unknown_verb_not_named_counterexample :
    Invoke (reliableHost "9m4e2mr0ui3e8a215n4g" "2018-05-01T12:00:00Z") World.empty
        "deleteInventory" ["100"]
      = (Response.error "Invalid Smart Contract function name.", World.empty) ∧
    Invoke (reliableHost "9m4e2mr0ui3e8a215n4g" "2018-05-01T12:00:00Z") World.empty
        "audit" ["100"]
      = (Response.error "Invalid Smart Contract function name.", World.empty) ∧
    ¬ List.IsInfix "deleteInventory".data "Invalid Smart Contract function name.".data ∧
    ¬ List.IsInfix "audit".data "Invalid Smart Contract function name.".data := by
  refine ⟨rfl, rfl, by decide, by decide⟩

/-- C13 (amended): `Invoke` routes "addInventory", "viewInventory", "sellFromInventory"
and "getTransactionHistory" to the operation of that name with the arguments unchanged,
and for every other verb returns the error with the fixed message "Invalid Smart
Contract function name." and leaves the world unchanged. -/
theorem Invoke_dispatch (h : Host) (w : World) (fn : String) (args : List String) :
    Invoke h w "addInventory" args = addInventory h w args ∧
    Invoke h w "viewInventory" args = viewInventory h w args ∧
    Invoke h w "sellFromInventory" args = sellFromInventory h w args ∧
    Invoke h w "getTransactionHistory" args = getTransactionHistory h w args ∧
    (fn ≠ "addInventory" → fn ≠ "viewInventory" → fn ≠ "sellFromInventory" →
      fn ≠ "getTransactionHistory" →
      Invoke h w fn args = (Response.error "Invalid Smart Contract function name.", w)) := by
  refine ⟨Invoke_add h w args, ?_, Invoke_sell h w args, ?_, ?_⟩
  · unfold Invoke
    rw [if_neg (by decide), if_pos rfl]
  · unfold Invoke
    rw [if_neg (by decide), if_neg (by decide), if_neg (by decide), if_pos rfl]
  · intro h1 h2 h3 h4
    unfold Invoke
    rw [if_neg h1, if_neg h2, if_neg h3, if_neg h4]

/-- Witness for C13 (amended): the verb "deleteInventory". -/
theorem Invoke_dispatch_witness :
    Invoke (reliableHost "9m4e2mr0ui3e8a215n4g" "2018-05-01T12:00:00Z") World.empty
        "deleteInventory" ["100"]
      = (Response.error "Invalid Smart Contract function name.", World.empty) :=
  (Invoke_dispatch (reliableHost "9m4e2mr0ui3e8a215n4g" "2018-05-01T12:00:00Z") World.empty
    "deleteInventory" ["100"]).2.2.2.2 (by decide) (by decide) (by decide) (by decide)

/-- C14 (the code at the failing input): when the write of the transaction under the
retailer key "1" fails, `addInventory` returns the message "Failed to set transaction ",
in which the key does not occur; when instead the write of the product under "100"
fails, the message "Failed to set asset: 100" ends with the key. -/
theorem transaction_write_failure_unnamed :
    addInventory
        { xidNew := "9m4e2mr0ui3e8a215n4g", timeNow := "2018-05-01T12:00:00Z",
          getFails := fun _ => false, putFails := fun k _ => k = "1" }
        World.empty ["1", "2", "100", "Shoe", "Acme", "Run", "9", "Red", "50"]
      = (Response.error "Failed to set transaction ", World.empty) ∧
    ¬ List.IsInfix "1".data "Failed to set transaction ".data ∧
    (addInventory
        { xidNew := "9m4e2mr0ui3e8a215n4g", timeNow := "2018-05-01T12:00:00Z",
          getFails := fun _ => false, putFails := fun k _ => k = "100" }
        World.empty ["1", "2", "100", "Shoe", "Acme", "Run", "9", "Red", "50"]).1
      = Response.error "Failed to set asset: 100" := by
  refine ⟨?_, by decide, ?_⟩
  · rw [addInventory_eq, if_pos (by decide)]
  · rw [addInventory_eq, if_neg (by decide), if_pos (by decide)]
    rfl

/-- C15 (counterexample): the quantity argument "9223372036854775808" is a digit string
outside the range of `int`; `Atoi` reports a range error and `addInventory` is not
rejected, but the quantity of the product it returns is 9223372036854775807, not 0. -/
theorem out_of_range_not_zero_counterexample :
    Atoi "9223372036854775808" = (9223372036854775807, some NumError.errRange) ∧
    (addInventory (reliableHost "9m4e2mr0ui3e8a215n4g" "2018-05-01T12:00:00Z") World.empty
        ["1", "2", "100", "Shoe", "Acme", "Run", "9", "Red", "9223372036854775808"]).1
      = Response.success
          (marshalProduct
            ⟨1, 2, 100, "Shoe", "Acme", "Run", 9, "Red", 9223372036854775807⟩).1 ∧
    (unmarshalProduct
        (marshalProduct ⟨1, 2, 100, "Shoe", "Acme", "Run", 9, "Red", 9223372036854775807⟩).1
        Product.zero).1.Quantity = 9223372036854775807 := by
  refine ⟨by decide, ?_, ?_⟩
  · rw [addInventory_success _ _ _ _ _ _ _ _ _ _ _ rfl rfl]
    rfl
  · rw [unmarshal_marshal _ _ (by decide)]

/-- C15 (amended): for every nine arguments, with store writes that do not fail,
`addInventory` is not rejected whatever the numeric arguments are: it returns the
product built from the values of `Atoi`; at each numeric position (`args[0]`,
`args[1]`, `args[2]`, `args[6]`, `args[8]`) a syntax error of `Atoi` (as for the empty
string or non-numeric text) gives the field 0, and a range error (a digit string
outside the range of `int`) gives the field the bound on the side of the sign:
-9223372036854775808 for a text that starts with a minus sign, 9223372036854775807
otherwise.  The decimal rendering of every integer above the range is such a text with
value 9223372036854775807, that of every integer below it one with value
-9223372036854775808. -/
theorem addInventory_permissive_parse (h : Host) (w : World)
    (a0 a1 a2 a3 a4 a5 a6 a7 a8 : String) (hput : ∀ k v, h.putFails k v = false) :
    (addInventory h w [a0, a1, a2, a3, a4, a5, a6, a7, a8]).1
        = Response.success (marshalProduct (productOfArgs a0 a1 a2 a3 a4 a5 a6 a7 a8)).1 ∧
      (((Atoi a0).2 = some NumError.errSyntax →
          (productOfArgs a0 a1 a2 a3 a4 a5 a6 a7 a8).RetailerId = 0) ∧
        ((Atoi a1).2 = some NumError.errSyntax →
          (productOfArgs a0 a1 a2 a3 a4 a5 a6 a7 a8).SupplierId = 0) ∧
        ((Atoi a2).2 = some NumError.errSyntax →
          (productOfArgs a0 a1 a2 a3 a4 a5 a6 a7 a8).ProductId = 0) ∧
        ((Atoi a6).2 = some NumError.errSyntax →
          (productOfArgs a0 a1 a2 a3 a4 a5 a6 a7 a8).Size = 0) ∧
        ((Atoi a8).2 = some NumError.errSyntax →
          (productOfArgs a0 a1 a2 a3 a4 a5 a6 a7 a8).Quantity = 0)) ∧
      (((Atoi a0).2 = some NumError.errRange →
          (productOfArgs a0 a1 a2 a3 a4 a5 a6 a7 a8).RetailerId
            = if a0.data.head? = some '-' then -9223372036854775808 else 9223372036854775807) ∧
        ((Atoi a1).2 = some NumError.errRange →
          (productOfArgs a0 a1 a2 a3 a4 a5 a6 a7 a8).SupplierId
            = if a1.data.head? = some '-' then -9223372036854775808 else 9223372036854775807) ∧
        ((Atoi a2).2 = some NumError.errRange →
          (productOfArgs a0 a1 a2 a3 a4 a5 a6 a7 a8).ProductId
            = if a2.data.head? = some '-' then -9223372036854775808 else 9223372036854775807) ∧
        ((Atoi a6).2 = some NumError.errRange →
          (productOfArgs a0 a1 a2 a3 a4 a5 a6 a7 a8).Size
            = if a6.data.head? = some '-' then -9223372036854775808 else 9223372036854775807) ∧
        ((Atoi a8).2 = some NumError.errRange →
          (productOfArgs a0 a1 a2 a3 a4 a5 a6 a7 a8).Quantity
            = if a8.data.head? = some '-' then -9223372036854775808
              else 9223372036854775807)) ∧
      (∀ i : Int,
        (9223372036854775807 < i →
          Atoi (Itoa i) = (9223372036854775807, some NumError.errRange)) ∧
        (i < -9223372036854775808 →
          Atoi (Itoa i) = (-9223372036854775808, some NumError.errRange))) := by
  refine ⟨?_, ⟨?_, ?_, ?_, ?_, ?_⟩, ⟨?_, ?_, ?_, ?_, ?_⟩, ?_⟩
  · rw [addInventory_success h w a0 a1 a2 a3 a4 a5 a6 a7 a8 (hput _ _) (hput _ _)]
  · exact (Atoi_error_value a0).1
  · exact (Atoi_error_value a1).1
  · exact (Atoi_error_value a2).1
  · exact (Atoi_error_value a6).1
  · exact (Atoi_error_value a8).1
  · exact Atoi_range_value a0
  · exact Atoi_range_value a1
  · exact Atoi_range_value a2
  · exact Atoi_range_value a6
  · exact Atoi_range_value a8
  · exact ParseInt_Itoa_outside

/-- Witness for C15 (amended): an empty retailer, a supplier above the range, a
non-numeric size and a quantity below the range give 0, 9223372036854775807, 0 and
-9223372036854775808. -/
theorem addInventory_permissive_parse_witness :
    (addInventory (reliableHost "9m4e2mr0ui3e8a215n4g" "2018-05-01T12:00:00Z") World.empty
        ["", "99999999999999999999", "100", "Shoe", "Acme", "Run", "nine", "Red",
          "-9223372036854775809"]).1
      = Response.success
          (marshalProduct
            ⟨0, 9223372036854775807, 100, "Shoe", "Acme", "Run", 0, "Red",
              -9223372036854775808⟩).1 :=
  (addInventory_permissive_parse (reliableHost "9m4e2mr0ui3e8a215n4g" "2018-05-01T12:00:00Z")
    World.empty "" "99999999999999999999" "100" "Shoe" "Acme" "Run" "nine" "Red"
    "-9223372036854775809" (fun _ _ => rfl)).1

/-- C16: `viewInventory [k]` returns success with the value `v` exactly when the read of
`k` does not fail and `v` is stored under `k`; it returns an error when nothing is
stored under `k` and when the read fails; in every case the world is unchanged. -/
theorem viewInventory_result (h : Host) (w : World) (k : String) :
    (∀ v, (viewInventory h w [k]).1 = Response.success v ↔
      (h.getFails k = false ∧ w.state k = some v)) ∧
    (w.state k = none → h.getFails k = false →
      (viewInventory h w [k]).1 = Response.error ("Asset not found: " ++ k)) ∧
    (h.getFails k = true →
      (viewInventory h w [k]).1 = Response.error ("Failed to get asset: %s with error: " ++ k)) ∧
    (viewInventory h w [k]).2 = w := by
  unfold viewInventory GetState
  cases hf : h.getFails k with
  | true => simp [hf]
  | false =>
    cases hs : w.state k with
    | none => simp [hf, hs]
    | some v0 => simp [hf, hs]

/-- Witness for C16: a stored value is returned as it is. -/
theorem viewInventory_result_witness :
    (viewInventory (reliableHost "9m4e2mr0ui3e8a215n4g" "2018-05-01T12:00:00Z")
        (World.empty.put "100" "raw bytes") ["100"]).1 = Response.success "raw bytes" :=
  ((viewInventory_result (reliableHost "9m4e2mr0ui3e8a215n4g" "2018-05-01T12:00:00Z")
    (World.empty.put "100" "raw bytes") "100").1 "raw bytes").2 ⟨rfl, rfl⟩

/-- C17: `getTransactionHistory` and `viewInventory` are the same function: for every
host, world and argument list they return the same response and the same world, which
is the world they were given. -/
theorem getTransactionHistory_eq_viewInventory (h : Host) (w : World) (args : List String) :
    getTransactionHistory h w args = viewInventory h w args ∧
      (getTransactionHistory h w args).2 = w ∧ (viewInventory h w args).2 = w := by
  exact ⟨rfl, viewInventory_world h w args, viewInventory_world h w args⟩

/-- C18 (counterexample): two runs of the same `addInventory` call on the empty world
that differ only in the generated identifier and time return the same response but
leave different values under the retailer key "1". -/
theorem store_depends_on_generated_id_counterexample :
    (Invoke (reliableHost "9m4e2mr0ui3e8a215n4g" "2018-05-01T12:00:00Z") World.empty
        "addInventory" ["1", "2", "100", "Shoe", "Acme", "Run", "9", "Red", "50"]).1
      = (Invoke (reliableHost "9m4e2mr0ui3e8a215n5g" "2018-05-01T12:00:01Z") World.empty
        "addInventory" ["1", "2", "100", "Shoe", "Acme", "Run", "9", "Red", "50"]).1 ∧
    (Invoke (reliableHost "9m4e2mr0ui3e8a215n4g" "2018-05-01T12:00:00Z") World.empty
        "addInventory" ["1", "2", "100", "Shoe", "Acme", "Run", "9", "Red", "50"]).2.state "1"
      ≠ (Invoke (reliableHost "9m4e2mr0ui3e8a215n5g" "2018-05-01T12:00:01Z") World.empty
        "addInventory" ["1", "2", "100", "Shoe", "Acme", "Run", "9", "Red", "50"]).2.state "1" := by
  decide

/-- C18 (amended): two runs of one invocation with the same verb, arguments and world,
the same read failures and no write failures, return the same response; the new worlds
hold the same value under every key, except that the transaction record a run has
written carries the identifier and the time generated during that run (and is otherwise
the same record). -/
theorem response_deterministic (h h' : Host) (w : World) (fn : String) (args : List String)
    (hget : h.getFails = h'.getFails)
    (hput : ∀ k v, h.putFails k v = false) (hput' : ∀ k v, h'.putFails k v = false) :
    (Invoke h w fn args).1 = (Invoke h' w fn args).1 ∧
      ∀ k, (Invoke h w fn args).2.state k = (Invoke h' w fn args).2.state k ∨
        ∃ t, (Invoke h w fn args).2.state k = some (marshalTransaction t).1 ∧
          (Invoke h' w fn args).2.state k = some (marshalTransaction (t.restamp h')).1 ∧
          t.TransactionId = h.xidNew ∧ t.TransactionTimestamp = h.timeNow := by
  unfold Invoke
  split_ifs
  · exact addInventory_two_runs h h' w args hput hput'
  · rw [viewInventory_congr h h' w args hget]
    exact ⟨rfl, fun k => Or.inl rfl⟩
  · exact sellFromInventory_two_runs h h' w args hget hput hput'
  · show (viewInventory h w args).1 = (viewInventory h' w args).1 ∧ _
    rw [show getTransactionHistory h w args = viewInventory h w args from rfl,
      show getTransactionHistory h' w args = viewInventory h' w args from rfl,
      viewInventory_congr h h' w args hget]
    exact ⟨rfl, fun k => Or.inl rfl⟩
  · exact ⟨rfl, fun k => Or.inl rfl⟩

/-- Witness for C18 (amended): the two runs of the counterexample return the same
response. -/
theorem response_deterministic_witness :
    (Invoke (reliableHost "9m4e2mr0ui3e8a215n4g" "2018-05-01T12:00:00Z") World.empty
        "addInventory" ["1", "2", "100", "Shoe", "Acme", "Run", "9", "Red", "50"]).1
      = (Invoke (reliableHost "9m4e2mr0ui3e8a215n5g" "2018-05-01T12:00:01Z") World.empty
        "addInventory" ["1", "2", "100", "Shoe", "Acme", "Run", "9", "Red", "50"]).1 :=
  (response_deterministic (reliableHost "9m4e2mr0ui3e8a215n4g" "2018-05-01T12:00:00Z")
    (reliableHost "9m4e2mr0ui3e8a215n5g" "2018-05-01T12:00:01Z") World.empty
    "addInventory" ["1", "2", "100", "Shoe", "Acme", "Run", "9", "Red", "50"]
    rfl (fun _ _ => rfl) (fun _ _ => rfl)).1

/-- C19 (counterexample): the product with productId 1 of retailer 7 is stored under
"1"; an `addInventory` for the different productId 100 by retailer 1 then writes its
transaction under "1", so the value under key "1" is no longer the product record. -/
theorem retailer_key_clobbers_product_counterexample :
    (Invoke (reliableHost "9m4e2mr0ui3e8a215n4g" "2018-05-01T12:00:00Z") World.empty
        "addInventory" ["7", "2", "1", "Shoe", "Acme", "Run", "9", "Red", "50"]).2.state "1"
      = some (marshalProduct ⟨7, 2, 1, "Shoe", "Acme", "Run", 9, "Red", 50⟩).1 ∧
    productKey "addInventory" ["1", "2", "100", "Hat", "Acme", "Sun", "7", "Blue", "5"] = "100" ∧
    (Invoke (reliableHost "9m4e2mr0ui3e8a215n5g" "2018-05-01T12:00:01Z")
        (Invoke (reliableHost "9m4e2mr0ui3e8a215n4g" "2018-05-01T12:00:00Z") World.empty
          "addInventory" ["7", "2", "1", "Shoe", "Acme", "Run", "9", "Red", "50"]).2
        "addInventory" ["1", "2", "100", "Hat", "Acme", "Sun", "7", "Blue", "5"]).2.state "1"
      = some (marshalTransaction ⟨"9m4e2mr0ui3e8a215n5g", "2018-05-01T12:00:01Z", "add", "2",
          ⟨1, 2, 100, "Hat", "Acme", "Sun", 7, "Blue", 5⟩⟩).1 ∧
    (marshalTransaction ⟨"9m4e2mr0ui3e8a215n5g", "2018-05-01T12:00:01Z", "add", "2",
        ⟨1, 2, 100, "Hat", "Acme", "Sun", 7, "Blue", 5⟩⟩).1
      ≠ (marshalProduct ⟨7, 2, 1, "Shoe", "Acme", "Run", 9, "Red", 50⟩).1 := by
  decide

/-- C19 (amended): an invocation leaves the value under key `p` unchanged unless `p` is
the product key of the call (`args[2]` of `addInventory`, `args[0]` of
`sellFromInventory`) or the retailer key under which the call writes its transaction;
a call that is neither `addInventory` nor `sellFromInventory` changes nothing; and no
invocation removes a key: a key that held a value still holds one afterwards. -/
theorem product_record_lifecycle (h : Host) (w : World) (fn : String) (args : List String)
    (p : String) :
    (p ≠ productKey fn args → p ≠ transactionKey w fn args →
      (Invoke h w fn args).2.state p = w.state p) ∧
    (¬ Mutating fn → (Invoke h w fn args).2 = w) ∧
    ((w.state p).isSome = true → ((Invoke h w fn args).2.state p).isSome = true) := by
  refine ⟨?_, ?_, ?_⟩
  · intro h1 h2
    rcases Invoke_world_cases h w fn args with e | ⟨tx, e⟩ | ⟨tx, pb, e⟩
    · rw [e]
    · rw [e, put_state_other _ _ _ _ h2]
    · rw [e, put_state_other _ _ _ _ h1, put_state_other _ _ _ _ h2]
  · intro hm
    unfold Mutating at hm
    push_neg at hm
    unfold Invoke
    rw [if_neg hm.1]
    split_ifs
    · exact viewInventory_world h w args
    · exact absurd ‹fn = "sellFromInventory"› hm.2
    · exact viewInventory_world h w args
    · rfl
  · intro hp
    rcases Invoke_world_cases h w fn args with e | ⟨tx, e⟩ | ⟨tx, pb, e⟩
    · rw [e]; exact hp
    · rw [e]; exact put_state_isSome _ _ _ _ hp
    · rw [e]; exact put_state_isSome _ _ _ _ (put_state_isSome _ _ _ _ hp)

/-- Witness for C19 (amended): the second call of the counterexample leaves the
transaction stored under "7" as it was. -/
theorem product_record_lifecycle_witness :
    (Invoke (reliableHost "9m4e2mr0ui3e8a215n5g" "2018-05-01T12:00:01Z")
        (Invoke (reliableHost "9m4e2mr0ui3e8a215n4g" "2018-05-01T12:00:00Z") World.empty
          "addInventory" ["7", "2", "1", "Shoe", "Acme", "Run", "9", "Red", "50"]).2
        "addInventory" ["1", "2", "100", "Hat", "Acme", "Sun", "7", "Blue", "5"]).2.state "7"
      = (Invoke (reliableHost "9m4e2mr0ui3e8a215n4g" "2018-05-01T12:00:00Z") World.empty
          "addInventory" ["7", "2", "1", "Shoe", "Acme", "Run", "9", "Red", "50"]).2.state "7" :=
  (product_record_lifecycle (reliableHost "9m4e2mr0ui3e8a215n5g" "2018-05-01T12:00:01Z")
    (Invoke (reliableHost "9m4e2mr0ui3e8a215n4g" "2018-05-01T12:00:00Z") World.empty
      "addInventory" ["7", "2", "1", "Shoe", "Acme", "Run", "9", "Red", "50"]).2
    "addInventory" ["1", "2", "100", "Hat", "Acme", "Sun", "7", "Blue", "5"] "7").1
    (by decide) (by decide)

/-- C20 (counterexample): key "100" holds the serialized product with quantity
9223372036854775807 and the argument "-1" parses to -1; the sale succeeds, but the
quantity written back is -9223372036854775808, which is not greater than the quantity
before. -/
theorem negative_sale_wraps_counterexample :
    (0 : Int) ≤ 9223372036854775807 ∧ (Atoi "-1").1 < 0 ∧
    (sellFromInventory (reliableHost "9m4e2mr0ui3e8a215n4g" "2018-05-01T12:00:00Z")
        (World.empty.put "100"
          (marshalProduct ⟨1, 2, 100, "Shoe", "Acme", "Run", 9, "Red", 9223372036854775807⟩).1)
        ["100", "-1"]).1
      = Response.success
          (marshalProduct
            ⟨1, 2, 100, "Shoe", "Acme", "Run", 9, "Red", -9223372036854775808⟩).1 ∧
    ¬ (9223372036854775807 : Int) < -9223372036854775808 := by
  refine ⟨by decide, by decide, ?_, by decide⟩
  have hp : (⟨1, 2, 100, "Shoe", "Acme", "Run", 9, "Red", 9223372036854775807⟩ :
      Product).WellFormed := by decide
  rw [sellFromInventory_success _ _ "100" "-1" _ hp rfl (put_state_same _ _ _) (by decide)
    (fun _ _ => rfl)]
  rfl

/-- C20 (amended): if key `id` holds the serialized product `p` with quantity `q ≥ 0`,
the store calls succeed and the argument parses to a negative `n`, then
`sellFromInventory [id, n]` is not rejected: it succeeds, writes under the retailer key
bytes that decode, without error, to a transaction of type "sell" with the updated
product as snapshot, and writes back under `id` the product whose quantity is Go's
`q - n`.  That quantity is `q - n`, strictly greater than `q`, when
`q - n ≤ 9223372036854775807`; otherwise it wraps around to `q - n - 2^64`, which is
negative. -/
theorem negative_sale_succeeds (h : Host) (w : World) (id n : String) (p : Product)
    (hp : p.WellFormed) (hread : h.getFails id = false)
    (hstored : w.state id = some (marshalProduct p).1)
    (hput : ∀ k v, h.putFails k v = false)
    (hq : 0 ≤ p.Quantity) (hn : (Atoi n).1 < 0) :
    (sellFromInventory h w [id, n]).1
        = Response.success (marshalProduct (soldProduct p (Atoi n).1)).1 ∧
      (∃ tx : String,
        (sellFromInventory h w [id, n]).2.writes
          = w.writes ++
            [(Itoa p.RetailerId, tx),
             (id, (marshalProduct (soldProduct p (Atoi n).1)).1)] ∧
        tx = (marshalTransaction
               { TransactionId := h.xidNew, TransactionTimestamp := h.timeNow,
                 TransactionType := "sell", TransactionOwner := Itoa p.RetailerId,
                 ProductInfo := soldProduct p (Atoi n).1 }).1 ∧
        unmarshalTransaction tx Transaction.zero
          = ({ TransactionId := h.xidNew, TransactionTimestamp := h.timeNow,
               TransactionType := "sell", TransactionOwner := Itoa p.RetailerId,
               ProductInfo := soldProduct p (Atoi n).1 }, false) ∧
        (unmarshalTransaction tx Transaction.zero).1.TransactionType = "sell") ∧
      unmarshalProduct (marshalProduct (soldProduct p (Atoi n).1)).1 Product.zero
        = (soldProduct p (Atoi n).1, false) ∧
      (p.Quantity - (Atoi n).1 ≤ maxInt →
        (soldProduct p (Atoi n).1).Quantity = p.Quantity - (Atoi n).1 ∧
          p.Quantity < (soldProduct p (Atoi n).1).Quantity) ∧
      (maxInt < p.Quantity - (Atoi n).1 →
        (soldProduct p (Atoi n).1).Quantity
            = p.Quantity - (Atoi n).1 - 18446744073709551616 ∧
          (soldProduct p (Atoi n).1).Quantity < 0) := by
  have hr := Atoi_inRange n
  have hqr : InRange p.Quantity := hp.2.2.2.2
  rw [sellFromInventory_success h w id n p hp hread hstored (by omega) hput]
  refine ⟨rfl, ⟨_, ?_, rfl, ?_⟩, unmarshal_marshal _ _ (soldProduct_wellFormed p _ hp), ?_, ?_⟩
  · simp [World.put, sellTransaction, soldProduct]
  · rw [unmarshalTransaction_marshal _ _ (soldProduct_wellFormed p _ hp)]
    exact ⟨rfl, rfl⟩
  · intro hfit
    rw [soldProduct_of_fit p _ (by omega) hfit]
    exact ⟨rfl, by show p.Quantity < p.Quantity - (Atoi n).1; omega⟩
  · intro hbig
    have e : (soldProduct p (Atoi n).1).Quantity
        = p.Quantity - (Atoi n).1 - 18446744073709551616 := by
      show wrapInt (p.Quantity - (Atoi n).1) = _
      unfold InRange minInt maxInt at hr hqr
      unfold maxInt at hbig
      unfold wrapInt
      omega
    refine ⟨e, ?_⟩
    rw [e]
    unfold InRange minInt maxInt at hr hqr
    omega

/-- Witness for C20 (amended): selling -5 of 30 units leaves 35, and the bytes written
under "1" decode to the transaction of type "sell" with snapshot quantity 35. -/
theorem negative_sale_succeeds_witness :
    (sellFromInventory (reliableHost "9m4e2mr0ui3e8a215n4g" "2018-05-01T12:00:00Z")
        (World.empty.put "100"
          (marshalProduct ⟨1, 2, 100, "Shoe", "Acme", "Run", 9, "Red", 30⟩).1)
        ["100", "-5"]).1
      = Response.success (marshalProduct ⟨1, 2, 100, "Shoe", "Acme", "Run", 9, "Red", 35⟩).1 ∧
    ∃ tx : String,
      (sellFromInventory (reliableHost "9m4e2mr0ui3e8a215n4g" "2018-05-01T12:00:00Z")
          (World.empty.put "100"
            (marshalProduct ⟨1, 2, 100, "Shoe", "Acme", "Run", 9, "Red", 30⟩).1)
          ["100", "-5"]).2.writes
        = [("100", (marshalProduct ⟨1, 2, 100, "Shoe", "Acme", "Run", 9, "Red", 30⟩).1),
           ("1", tx),
           ("100", (marshalProduct ⟨1, 2, 100, "Shoe", "Acme", "Run", 9, "Red", 35⟩).1)] ∧
      unmarshalTransaction tx Transaction.zero
        = (⟨"9m4e2mr0ui3e8a215n4g", "2018-05-01T12:00:00Z", "sell", "1",
            ⟨1, 2, 100, "Shoe", "Acme", "Run", 9, "Red", 35⟩⟩, false) :=
  have key := negative_sale_succeeds
    (reliableHost "9m4e2mr0ui3e8a215n4g" "2018-05-01T12:00:00Z")
    (World.empty.put "100" (marshalProduct ⟨1, 2, 100, "Shoe", "Acme", "Run", 9, "Red", 30⟩).1)
    "100" "-5" ⟨1, 2, 100, "Shoe", "Acme", "Run", 9, "Red", 30⟩ (by decide) rfl
    (put_state_same _ _ _) (fun _ _ => rfl) (by decide) (by decide)
  ⟨key.1, key.2.1.elim fun tx htx => ⟨tx, htx.1, htx.2.1.symm ▸ (by decide)⟩⟩

end Blockchain
